import Mathlib

/-!
# Verification of the MeshCore vanity key generator

Shallow embedding of the key-generation, validation and pattern-matching code
of the `rust-meshcore-keygen` repository (`src/keygen.rs`, `src/pattern.rs`,
and the Metal compute shader embedded in `src/metal_gpu.rs`), together with
theorems settling the specification claims about it.

Bytes are modelled as natural numbers (with `< 256` side conditions where
relevant), byte strings as `List Nat`, and the Metal shader's signed 64-bit
limb arithmetic on two's-complement bit patterns with explicit wrap-around
at `2^64`.
-/

namespace MeshKeygen

/-! ## Byte-level helpers -/

/-- Little-endian interpretation of a byte string as a natural number. -/
def bytesToNatLE : List Nat → Nat
  | [] => 0
  | b :: rest => b + 256 * bytesToNatLE rest

/-- The `len` little-endian bytes of `x` (least significant first). -/
def natToBytesLE (len x : Nat) : List Nat :=
  (List.range len).map fun i => x / 256 ^ i % 256

/-- The `len` big-endian bytes of `x` (most significant first). -/
def natToBytesBE (len x : Nat) : List Nat :=
  (List.range len).map fun i => x / 256 ^ (len - 1 - i) % 256

/-- Big-endian interpretation of a byte string as a natural number. -/
def bytesBEToNat (l : List Nat) : Nat :=
  l.foldl (fun a b => a * 256 + b) 0

/-- Modular exponentiation by repeated squaring, with explicit structural fuel
so that concrete instances reduce inside the kernel. -/
def powModAux : Nat → Nat → Nat → Nat → Nat
  | 0, _, _, m => 1 % m
  | fuel + 1, b, e, m =>
    if e = 0 then 1 % m
    else
      let r := powModAux fuel b (e / 2) m
      if e % 2 = 1 then r * r % m * b % m else r * r % m

/-- Modular exponentiation `b ^ e % m` for exponents below `2 ^ 300`. -/
def powMod (b e m : Nat) : Nat :=
  powModAux 300 b e m

/-! ## SHA-512

Model of the SHA-512 hash (FIPS 180-4) as computed by the `sha2` crate used in
`src/keygen.rs`, and of the from-scratch `sha512_32bytes` function of the Metal
shader in `src/metal_gpu.rs`.  Both share the round constants, the message
schedule recurrence and the 80-round compression, which are identical in the
two sources; they differ in how the message block is assembled. -/

/-- 64-bit wrap-around addition. -/
def add64 (a b : Nat) : Nat := (a + b) % 2 ^ 64

/-- 64-bit right rotation (operands below `2 ^ 64`). -/
def rotr64 (x n : Nat) : Nat := (x >>> n) ||| ((x % 2 ^ n) <<< (64 - n))

/-- 64-bit bitwise complement. -/
def not64 (x : Nat) : Nat := x ^^^ (2 ^ 64 - 1)

/-- The SHA-512 round constants K[0..80]. -/
def sha512K : List Nat :=
  [4794697086780616226, 8158064640168781261, 13096744586834688815, 16840607885511220156,
   4131703408338449720, 6480981068601479193, 10538285296894168987, 12329834152419229976,
   15566598209576043074, 1334009975649890238, 2608012711638119052, 6128411473006802146,
   8268148722764581231, 9286055187155687089, 11230858885718282805, 13951009754708518548,
   16472876342353939154, 17275323862435702243, 1135362057144423861, 2597628984639134821,
   3308224258029322869, 5365058923640841347, 6679025012923562964, 8573033837759648693,
   10970295158949994411, 12119686244451234320, 12683024718118986047, 13788192230050041572,
   14330467153632333762, 15395433587784984357, 489312712824947311, 1452737877330783856,
   2861767655752347644, 3322285676063803686, 5560940570517711597, 5996557281743188959,
   7280758554555802590, 8532644243296465576, 9350256976987008742, 10552545826968843579,
   11727347734174303076, 12113106623233404929, 14000437183269869457, 14369950271660146224,
   15101387698204529176, 15463397548674623760, 17586052441742319658, 1182934255886127544,
   1847814050463011016, 2177327727835720531, 2830643537854262169, 3796741975233480872,
   4115178125766777443, 5681478168544905931, 6601373596472566643, 7507060721942968483,
   8399075790359081724, 8693463985226723168, 9568029438360202098, 10144078919501101548,
   10430055236837252648, 11840083180663258601, 13761210420658862357, 14299343276471374635,
   14566680578165727644, 15097957966210449927, 16922976911328602910, 17689382322260857208,
   500013540394364858, 748580250866718886, 1242879168328830382, 1977374033974150939,
   2944078676154940804, 3659926193048069267, 4368137639120453308, 4836135668995329356,
   5532061633213252278, 6448918945643986474, 6902733635092675308, 7801388544844847127]

/-- The SHA-512 working state / chaining value (eight 64-bit words). -/
structure Sha512State where
  a : Nat
  b : Nat
  c : Nat
  d : Nat
  e : Nat
  f : Nat
  g : Nat
  h : Nat

/-- The SHA-512 initial hash value H(0). -/
def sha512Init : Sha512State :=
  ⟨7640891576956012808, 13503953896175478587, 4354685564936845355,
   11912009170470909681, 5840696475078001361, 11170449401992604703,
   2270897969802886507, 6620516959819538809⟩

/-- Extend sixteen schedule words to the full 80-word SHA-512 message schedule. -/
def sha512Schedule (w16 : List Nat) : List Nat :=
  (List.range 64).foldl
    (fun w _ =>
      let i := w.length
      let wm15 := w.getD (i - 15) 0
      let wm2 := w.getD (i - 2) 0
      let s0 := rotr64 wm15 1 ^^^ rotr64 wm15 8 ^^^ (wm15 >>> 7)
      let s1 := rotr64 wm2 19 ^^^ rotr64 wm2 61 ^^^ (wm2 >>> 6)
      w ++ [add64 (add64 (w.getD (i - 16) 0) s0) (add64 (w.getD (i - 7) 0) s1)])
    w16

/-- One SHA-512 round. -/
def sha512Round (st : Sha512State) (k w : Nat) : Sha512State :=
  let S1 := rotr64 st.e 14 ^^^ rotr64 st.e 18 ^^^ rotr64 st.e 41
  let ch := (st.e &&& st.f) ^^^ (not64 st.e &&& st.g)
  let temp1 := add64 (add64 (add64 st.h S1) (add64 ch k)) w
  let S0 := rotr64 st.a 28 ^^^ rotr64 st.a 34 ^^^ rotr64 st.a 39
  let maj := (st.a &&& st.b) ^^^ (st.a &&& st.c) ^^^ (st.b &&& st.c)
  let temp2 := add64 S0 maj
  ⟨add64 temp1 temp2, st.a, st.b, st.c, add64 st.d temp1, st.e, st.f, st.g⟩

/-- Run the 80 SHA-512 rounds over a schedule and add the result back into the
chaining value. -/
def sha512Compress (chain : Sha512State) (w16 : List Nat) : Sha512State :=
  let w := sha512Schedule w16
  let fin := (List.range 80).foldl
    (fun st i => sha512Round st (sha512K.getD i 0) (w.getD i 0)) chain
  ⟨add64 chain.a fin.a, add64 chain.b fin.b, add64 chain.c fin.c, add64 chain.d fin.d,
   add64 chain.e fin.e, add64 chain.f fin.f, add64 chain.g fin.g, add64 chain.h fin.h⟩

/-- Serialize a chaining value as 64 big-endian bytes. -/
def sha512StateBytes (st : Sha512State) : List Nat :=
  natToBytesBE 8 st.a ++ natToBytesBE 8 st.b ++ natToBytesBE 8 st.c ++ natToBytesBE 8 st.d ++
    natToBytesBE 8 st.e ++ natToBytesBE 8 st.f ++ natToBytesBE 8 st.g ++ natToBytesBE 8 st.h

/-- SHA-512 padding: append `0x80`, zeros, and the 16-byte big-endian bit length. -/
def sha512Pad (msg : List Nat) : List Nat :=
  msg ++ 128 :: List.replicate ((128 - (msg.length + 17) % 128) % 128) 0 ++
    natToBytesBE 16 (8 * msg.length)

/-- The sixteen big-endian 64-bit schedule words of a 128-byte block. -/
def sha512BlockWords (block : List Nat) : List Nat :=
  (List.range 16).map fun i => bytesBEToNat ((block.drop (8 * i)).take 8)

/-- SHA-512 of an arbitrary byte string, as computed by the `sha2` crate. -/
def sha512 (msg : List Nat) : List Nat :=
  let padded := sha512Pad msg
  let blocks := (List.range (padded.length / 128)).map fun i => (padded.drop (128 * i)).take 128
  sha512StateBytes (blocks.foldl (fun st bl => sha512Compress st (sha512BlockWords bl)) sha512Init)

/-- The Metal shader's `sha512_32bytes`: a one-block SHA-512 specialized to
32-byte messages.  The schedule head holds the four big-endian input words,
then the `0x80` padding word, zeros, and the bit length 256 in `W[15]`. -/
def sha512_32bytes (input : List Nat) : List Nat :=
  let w16 := ((List.range 4).map fun i => bytesBEToNat ((input.drop (8 * i)).take 8)) ++
    0x8000000000000000 :: List.replicate 10 0 ++ [256]
  sha512StateBytes (sha512Compress sha512Init w16)

/-! ## Ed25519 over the exact field `GF(2^255 - 19)`

Model of the curve25519-dalek operations used by `src/keygen.rs`: scalar
reduction mod the group order, fixed-basepoint scalar multiplication in
extended twisted-Edwards coordinates, point compression and decompression,
and the Montgomery-form conversion used for X25519 shared secrets. -/

/-- The field prime `2^255 - 19`. -/
def P25519 : Nat := 2 ^ 255 - 19

/-- The Ed25519 group order `ℓ = 2^252 + 27742317777372353535851937790883648493`. -/
def ORDER_L : Nat := 2 ^ 252 + 27742317777372353535851937790883648493

/-- The Edwards curve constant `d = -121665/121666 mod p`. -/
def ED_D : Nat := 37095705934669439343138083508754565189542113879843219016388785533085940283555

/-- A square root of `-1` modulo `p` (dalek's `SQRT_M1`). -/
def SQRT_M1 : Nat := 19681161376707505956807079304988542015446066515923890162744021073123829784752

/-- x-coordinate of the Ed25519 basepoint. -/
def BASE_X : Nat := 15112221349535400772501151409588531511454012693041857206046113283949847762202

/-- y-coordinate of the Ed25519 basepoint (`4/5 mod p`). -/
def BASE_Y : Nat := 46316835694926478169428394003475163141307993866256225615783033603165251855960

/-- Field addition mod `p`. -/
def fadd (a b : Nat) : Nat := (a + b) % P25519

/-- Field subtraction mod `p` (operands reduced first). -/
def fsub (a b : Nat) : Nat := (a % P25519 + (P25519 - b % P25519)) % P25519

/-- Field multiplication mod `p`. -/
def fmul (a b : Nat) : Nat := a * b % P25519

/-- Field inversion via Fermat's little theorem, mapping `0` to `0`
(matching dalek's `invert`, which returns `0` on input `0`). -/
def finv0 (a : Nat) : Nat := powMod a (P25519 - 2) P25519

/-- An Edwards point in extended homogeneous coordinates
(`x = X/Z`, `y = Y/Z`, `xy = T/Z`). -/
structure EdPoint where
  X : Nat
  Y : Nat
  Z : Nat
  T : Nat

/-- The identity element. -/
def edIdentity : EdPoint := ⟨0, 1, 1, 0⟩

/-- The basepoint in extended coordinates. -/
def edBasepoint : EdPoint := ⟨BASE_X, BASE_Y, 1, fmul BASE_X BASE_Y⟩

/-- Unified extended-coordinate point addition on the twisted Edwards curve
`-x² + y² = 1 + d x² y²` (complete for this curve since `-1` is a square and
`d` is not). -/
def edAdd (p q : EdPoint) : EdPoint :=
  let A := fmul (fsub p.Y p.X) (fsub q.Y q.X)
  let B := fmul (fadd p.Y p.X) (fadd q.Y q.X)
  let C := fmul (fmul (fmul 2 ED_D) p.T) q.T
  let D := fmul (fmul 2 p.Z) q.Z
  let E := fsub B A
  let F := fsub D C
  let G := fadd D C
  let H := fadd B A
  ⟨fmul E F, fmul G H, fmul F G, fmul E H⟩

/-- Scalar multiplication `[s]P` by binary double-and-add, least significant
bit first, over 256 scalar bits. -/
def edScalarMul (s : Nat) (p : EdPoint) : EdPoint :=
  ((List.range 256).foldl
    (fun (st : EdPoint × EdPoint) i =>
      (if s >>> i &&& 1 = 1 then edAdd st.1 st.2 else st.1, edAdd st.2 st.2))
    (edIdentity, p)).1

/-- Affine coordinates of an extended point. -/
def edAffine (p : EdPoint) : Nat × Nat :=
  let zinv := finv0 p.Z
  (fmul p.X zinv, fmul p.Y zinv)

/-- Compressed 32-byte encoding: the y-coordinate little-endian, with the
parity of x in the top bit of the last byte. -/
def compressEdwards (p : EdPoint) : List Nat :=
  let a := edAffine p
  natToBytesLE 32 (a.2 + 2 ^ 255 * (a.1 % 2))

/-- Decompression of a 32-byte encoding, as dalek's
`CompressedEdwardsY::decompress`: mask off the sign bit, read y little-endian,
recover `x = ±√((y²-1)/(dy²+1))` choosing the nonnegative root, then apply the
sign bit; fails exactly when the ratio is not a square. -/
def decompressEdwards (bytes : List Nat) : Option (Nat × Nat) :=
  let v := bytesToNatLE bytes
  let sign := v / 2 ^ 255 % 2
  let y := v % 2 ^ 255 % P25519
  let yy := fmul y y
  let u := fsub yy 1
  let w := fadd (fmul ED_D yy) 1
  let r := fmul (fmul u (powMod w 3 P25519))
    (powMod (fmul u (powMod w 7 P25519)) ((P25519 - 5) / 8) P25519)
  let chk := fmul w (fmul r r)
  let root? := if chk = u then some r
    else if chk = fsub 0 u then some (fmul r SQRT_M1)
    else none
  root?.map fun root =>
    let x0 := if root % 2 = 1 then P25519 - root else root
    (if sign = 1 then (P25519 - x0) % P25519 else x0, y)

/-- The Montgomery u-coordinate of an Edwards point, `u = (1+y)/(1-y)` with
dalek's zero-propagating inversion (so the identity maps to `u = 0`);
this is `EdwardsPoint::to_montgomery` composed with `MontgomeryPoint` access. -/
def montgomeryU (p : EdPoint) : Nat :=
  let a := edAffine p
  fmul (fadd 1 a.2) (finv0 (fsub 1 a.2))

/-! ## `src/keygen.rs` -/

/-- The generated key information (`KeyInfo` in `src/keygen.rs`); hex strings
are modelled as their ASCII byte sequences. -/
structure KeyInfo where
  public_hex : List Nat
  private_hex : List Nat
  public_bytes : List Nat
  private_bytes : List Nat

/-- Lowercase hex digit (ASCII code) of a nibble value, as `hex::encode`. -/
def hexDigitL (v : Nat) : Nat := if v < 10 then 48 + v else 87 + v

/-- `hex::encode`: two lowercase hex characters per byte. -/
def hexEncode (l : List Nat) : List Nat :=
  l.flatMap fun b => [hexDigitL (b / 16), hexDigitL (b % 16)]

/-- `clamp_scalar`: clear the bottom 3 bits of byte 0, clear the top 2 bits of
byte 31, set bit 6 of byte 31. -/
def clamp_scalar (scalar : List Nat) : List Nat :=
  let s1 := scalar.set 0 (scalar.getD 0 0 &&& 248)
  s1.set 31 ((s1.getD 31 0 &&& 63) ||| 64)

/-- `generate_from_seed`: SHA-512 the seed, clamp the first half, derive the
public key by basepoint scalar multiplication of the clamped scalar reduced
mod the group order (`Scalar::from_bytes_mod_order`), and assemble the private
key as clamped scalar followed by the digest tail. -/
def generate_from_seed (seed : List Nat) : KeyInfo :=
  let digest := sha512 seed
  let clamped := clamp_scalar (digest.take 32)
  let scalar := bytesToNatLE clamped % ORDER_L
  let public_bytes := compressEdwards (edScalarMul scalar edBasepoint)
  let private_bytes := clamped ++ digest.drop 32
  ⟨hexEncode public_bytes, hexEncode private_bytes, public_bytes, private_bytes⟩

/-- `verify_key`: re-derive the public key from the first 32 private-key bytes
and compare with the stored public key. -/
def verify_key (key : KeyInfo) : Bool :=
  let clamped := key.private_bytes.take 32
  let scalar := bytesToNatLE clamped % ORDER_L
  let derived := compressEdwards (edScalarMul scalar edBasepoint)
  derived == key.public_bytes

/-- `ValidationResult` of `src/keygen.rs`. -/
structure ValidationResult where
  valid : Bool
  reason : Option String

/-- dalek's `CompressedEdwardsY::from_slice`, which succeeds exactly on
32-byte slices. -/
def compressedEdwardsY_from_slice (l : List Nat) : Option (List Nat) :=
  if l.length = 32 then some l else none

/-- `ecdh_key_exchange`: scalar from the first 32 private-key bytes mod the
group order, decompress the peer public key, convert to Montgomery form and
scalar-multiply; decompression failure yields all zeros.  The `unwrap` of
`from_slice` (which cannot fail on 32-byte input) is modelled by returning the
empty list on the impossible branch. -/
def ecdh_key_exchange (private_key other_public : List Nat) : List Nat :=
  let scalar := bytesToNatLE (private_key.take 32) % ORDER_L
  match compressedEdwardsY_from_slice other_public with
  | none => []
  | some compressed =>
    match decompressEdwards compressed with
    | some pt =>
      natToBytesLE 32 (montgomeryU (edScalarMul scalar ⟨pt.1, pt.2, 1, fmul pt.1 pt.2⟩))
    | none => List.replicate 32 0

/-- The hard-coded test client private key of `validate_for_meshcore`. -/
def test_client_prv : List Nat :=
  [0x70, 0x65, 0xe1, 0x8f, 0xd9, 0xfa, 0xbb, 0x70, 0xc1, 0xed, 0x90, 0xdc, 0xa1, 0x99, 0x07,
   0xde, 0x69, 0x8c, 0x88, 0xb7, 0x09, 0xea, 0x14, 0x6e, 0xaf, 0xd9, 0x3d, 0x9b, 0x83, 0x0c,
   0x7b, 0x60, 0xc4, 0x68, 0x11, 0x93, 0xc7, 0x9b, 0xbc, 0x39, 0x94, 0x5b, 0xa8, 0x06, 0x41,
   0x04, 0xbb, 0x61, 0x8f, 0x8f, 0xd7, 0xa8, 0x4a, 0x0a, 0xf6, 0xf5, 0x70, 0x33, 0xd6, 0xe8,
   0xdd, 0xcd, 0x64, 0x71]

/-- The hard-coded test client public key of `validate_for_meshcore`. -/
def test_client_pub : List Nat :=
  [0x1e, 0xc7, 0x71, 0x75, 0xb0, 0x91, 0x8e, 0xd2, 0x06, 0xf9, 0xae, 0x04, 0xec, 0x13, 0x6d,
   0x6d, 0x5d, 0x43, 0x15, 0xbb, 0x26, 0x30, 0x54, 0x27, 0xf6, 0x45, 0xb4, 0x92, 0xe9, 0x35,
   0x0c, 0x10]

/-- `validate_for_meshcore`: reject reserved first bytes `0x00`/`0xFF`, then
require the bidirectional ECDH shared secrets against the test keypair to be
equal and not all zero. -/
def validate_for_meshcore (key : KeyInfo) : ValidationResult :=
  if key.public_bytes.getD 0 0 = 0 then
    ⟨false, some "Public key starts with 0x00 (reserved in MeshCore)"⟩
  else if key.public_bytes.getD 0 0 = 255 then
    ⟨false, some "Public key starts with 0xFF (reserved in MeshCore)"⟩
  else
    let ss1 := ecdh_key_exchange key.private_bytes test_client_pub
    let ss2 := ecdh_key_exchange test_client_prv key.public_bytes
    if ss1 ≠ ss2 then
      ⟨false, some "ECDH key exchange produces mismatched shared secrets"⟩
    else if ss1.all fun b => b == 0 then
      ⟨false, some "ECDH produces all-zero shared secret"⟩
    else
      ⟨true, none⟩

/-! ## `src/pattern.rs`

Strings are modelled as byte lists; `String::to_uppercase` is modelled at the
byte level (ASCII letters are uppercased, other bytes kept), which coincides
with Rust on ASCII strings, and in particular on the hex strings and hex
pattern characters all claims are concerned with. -/

/-- Pattern matching modes (`PatternMode` in `src/pattern.rs`). -/
inductive PatternMode where
  | Any : PatternMode
  | Prefix : PatternMode
  | Vanity : PatternMode
  | Pattern : PatternMode
  | PrefixVanity : PatternMode
deriving DecidableEq

/-- Pattern configuration; `prefix_str` models the `prefix: Option<String>`
field as its byte sequence. -/
structure PatternConfig where
  mode : PatternMode
  prefix_str : Option (List Nat)
  vanity_length : Nat

/-- ASCII uppercasing of one byte. -/
def upperByte (c : Nat) : Nat := if 97 ≤ c ∧ c ≤ 122 then c - 32 else c

/-- Byte-level ASCII uppercasing (models `str::to_uppercase`). -/
def asciiUpper (l : List Nat) : List Nat := l.map upperByte

/-- `check_vanity_pattern`: the first `n` hex characters equal the last `n`,
or equal their reverse. -/
def check_vanity_pattern (hexBytes : List Nat) (n : Nat) : Bool :=
  if hexBytes.length < n * 2 then false
  else
    let firstN := hexBytes.take n
    let lastN := hexBytes.drop (hexBytes.length - n)
    firstN == lastN || firstN == lastN.reverse

/-- `matches_pattern`: the hex-string matcher (hot path of the CPU worker). -/
def matches_pattern (hex : List Nat) (config : PatternConfig) : Bool :=
  let hexUpper := asciiUpper hex
  match config.mode with
  | .Any => true
  | .Prefix =>
    match config.prefix_str with
    | some pre => pre.isPrefixOf hexUpper
    | none => true
  | .Vanity | .Pattern => check_vanity_pattern hexUpper config.vanity_length
  | .PrefixVanity =>
    match config.prefix_str with
    | some pre =>
      if ¬ pre.isPrefixOf hexUpper then false
      else check_vanity_pattern hexUpper config.vanity_length
    | none => check_vanity_pattern hexUpper config.vanity_length

/-- The nibble (hex character value) sequence of a byte string: high nibble
then low nibble of each byte. -/
def byteNibbles (l : List Nat) : List Nat :=
  l.flatMap fun b => [b >>> 4, b &&& 15]

/-- `check_nibble_palindrome`: equal lengths, and the nibble sequence of the
first slice equals the reversed nibble sequence of the second. -/
def check_nibble_palindrome (first lst : List Nat) : Bool :=
  if first.length ≠ lst.length then false
  else byteNibbles first == (byteNibbles lst).reverse

/-- `check_vanity_pattern_bytes`: the raw-byte Mirror matcher, with dedicated
branches for 2/4/6/8 hex characters and a generic slice path.  The generic
path's slicing `public_bytes[..n_bytes]` panics when `n_bytes > 32`; the panic
is modelled as `none`. -/
def check_vanity_pattern_bytes (pb : List Nat) (nHexChars : Nat) : Option Bool :=
  if nHexChars = 2 then
    let first := pb.getD 0 0
    let lst := pb.getD 31 0
    some (first == lst || ((first >>> 4 == lst &&& 15) && (first &&& 15 == lst >>> 4)))
  else if nHexChars = 4 then
    some (pb.take 2 == pb.drop 30 || check_nibble_palindrome (pb.take 2) (pb.drop 30))
  else if nHexChars = 6 then
    some (pb.take 3 == pb.drop 29 || check_nibble_palindrome (pb.take 3) (pb.drop 29))
  else if nHexChars = 8 then
    some (pb.take 4 == pb.drop 28 || check_nibble_palindrome (pb.take 4) (pb.drop 28))
  else if (nHexChars + 1) / 2 ≤ 32 then
    some (pb.take ((nHexChars + 1) / 2) == pb.drop (32 - (nHexChars + 1) / 2) ||
      check_nibble_palindrome (pb.take ((nHexChars + 1) / 2)) (pb.drop (32 - (nHexChars + 1) / 2)))
  else none

/-- Value of an (uppercased) hex character byte, `None` on non-hex bytes. -/
def hexCharValue (c : Nat) : Option Nat :=
  if 48 ≤ c ∧ c ≤ 57 then some (c - 48)
  else if 65 ≤ c ∧ c ≤ 70 then some (c - 65 + 10)
  else if 97 ≤ c ∧ c ≤ 102 then some (c - 97 + 10)
  else none

/-- The nibble-comparison loop of `matches_prefix_bytes`, carrying the running
character index `i`. -/
def matchesPrefixAux (pb : List Nat) : List Nat → Nat → Bool
  | [], _ => true
  | c :: rest, i =>
    if 32 ≤ i / 2 then false
    else
      match hexCharValue c with
      | none => false
      | some expected =>
        if (if i % 2 = 0 then pb.getD (i / 2) 0 >>> 4 else pb.getD (i / 2) 0 &&& 15) = expected
        then matchesPrefixAux pb rest (i + 1) else false

/-- `matches_prefix_bytes`: uppercase the pattern and compare each of its hex
characters with the corresponding nibble of the public key. -/
def matches_prefix_bytes (pb pre : List Nat) : Bool :=
  matchesPrefixAux pb (asciiUpper pre) 0

/-- `matches_pattern_bytes`: the raw-byte matcher (hot path of the GPU worker);
`none` models a panic of the Mirror branch. -/
def matches_pattern_bytes (pb : List Nat) (config : PatternConfig) : Option Bool :=
  match config.mode with
  | .Any => some true
  | .Prefix =>
    match config.prefix_str with
    | some pre => some (matches_prefix_bytes pb pre)
    | none => some true
  | .Vanity | .Pattern => check_vanity_pattern_bytes pb config.vanity_length
  | .PrefixVanity =>
    match config.prefix_str with
    | some pre =>
      if ¬ matches_prefix_bytes pb pre then some false
      else check_vanity_pattern_bytes pb config.vanity_length
    | none => check_vanity_pattern_bytes pb config.vanity_length

/-! ## The Metal compute shader of `src/metal_gpu.rs`

The shader implements Ed25519 from scratch with field elements as five
`int64_t` limbs of 51 bits.  Metal's `int64_t` arithmetic wraps at `2^64`;
a limb is modelled as its two's-complement bit pattern, a natural number
below `2^64`, with the shader's signed operations expressed on patterns:
`+`, `-` and `*` act modulo `2^64`, `>> n` is an arithmetic shift (sign bits
replicated into the top), and `& mask` with a low-bit mask keeps the low
bits.  The modelling is exact: for in-range operands each helper computes
the bit pattern that the device's `int64_t` operation produces. -/

/-- Wrapping `int64_t` addition on bit patterns. -/
def iadd (a b : Nat) : Nat := (a + b) % 2 ^ 64

/-- Wrapping `int64_t` subtraction on bit patterns (operands below `2^64`). -/
def isub (a b : Nat) : Nat := (a + (2 ^ 64 - b)) % 2 ^ 64

/-- Wrapping `int64_t` multiplication on bit patterns. -/
def imul (a b : Nat) : Nat := a * b % 2 ^ 64

/-- Arithmetic right shift of an `int64_t` bit pattern: logical shift, then
replicate the sign into the vacated top bits. -/
def sar (x n : Nat) : Nat :=
  if x < 2 ^ 63 then x >>> n else (x >>> n) + (2 ^ 64 - 2 ^ (64 - n))

/-- `x >> 51` on `int64_t`. -/
def sar51 (x : Nat) : Nat := sar x 51

/-- `x & 0x7ffffffffffff` on `int64_t`. -/
def low51 (x : Nat) : Nat := x &&& (2 ^ 51 - 1)

/-- A shader field element: five `int64_t` limbs (bit patterns), 51 bits of
payload each. -/
structure Gfe where
  v0 : Nat
  v1 : Nat
  v2 : Nat
  v3 : Nat
  v4 : Nat
deriving DecidableEq

/-- `fe_zero`. -/
def fe_zero : Gfe := ⟨0, 0, 0, 0, 0⟩

/-- `fe_one`. -/
def fe_one : Gfe := ⟨1, 0, 0, 0, 0⟩

/-- `fe_reduce`: one carry-propagation pass with the `* 19` wraparound. -/
def fe_reduce (f : Gfe) : Gfe :=
  let c0 := sar51 f.v0
  let a0 := low51 f.v0
  let b1 := iadd f.v1 c0
  let c1 := sar51 b1
  let a1 := low51 b1
  let b2 := iadd f.v2 c1
  let c2 := sar51 b2
  let a2 := low51 b2
  let b3 := iadd f.v3 c2
  let c3 := sar51 b3
  let a3 := low51 b3
  let b4 := iadd f.v4 c3
  let c4 := sar51 b4
  let a4 := low51 b4
  let b0 := iadd a0 (imul c4 19)
  let c5 := sar51 b0
  let d0 := low51 b0
  let d1 := iadd a1 c5
  ⟨d0, d1, a2, a3, a4⟩

/-- `fe_add`: limbwise addition, no carry propagation. -/
def fe_add (a b : Gfe) : Gfe :=
  ⟨iadd a.v0 b.v0, iadd a.v1 b.v1, iadd a.v2 b.v2, iadd a.v3 b.v3, iadd a.v4 b.v4⟩

/-- `fe_sub`: limbwise subtraction offset by `2p`, then one reduction. -/
def fe_sub (a b : Gfe) : Gfe :=
  fe_reduce
    ⟨iadd (isub a.v0 b.v0) 0xfffffffffffda,
     iadd (isub a.v1 b.v1) 0xffffffffffffe,
     iadd (isub a.v2 b.v2) 0xffffffffffffe,
     iadd (isub a.v3 b.v3) 0xffffffffffffe,
     iadd (isub a.v4 b.v4) 0xffffffffffffe⟩

/-- `fe_mul`: schoolbook multiplication with the upper limbs pre-multiplied by
19, followed by two reduction passes.  All products and sums wrap at the
`int64_t` width, exactly as the shader's arithmetic does on the device. -/
def fe_mul (a b : Gfe) : Gfe :=
  let b1_19 := imul b.v1 19
  let b2_19 := imul b.v2 19
  let b3_19 := imul b.v3 19
  let b4_19 := imul b.v4 19
  let r0 := iadd (iadd (iadd (iadd (imul a.v0 b.v0) (imul a.v1 b4_19)) (imul a.v2 b3_19))
    (imul a.v3 b2_19)) (imul a.v4 b1_19)
  let r1 := iadd (iadd (iadd (iadd (imul a.v0 b.v1) (imul a.v1 b.v0)) (imul a.v2 b4_19))
    (imul a.v3 b3_19)) (imul a.v4 b2_19)
  let r2 := iadd (iadd (iadd (iadd (imul a.v0 b.v2) (imul a.v1 b.v1)) (imul a.v2 b.v0))
    (imul a.v3 b4_19)) (imul a.v4 b3_19)
  let r3 := iadd (iadd (iadd (iadd (imul a.v0 b.v3) (imul a.v1 b.v2)) (imul a.v2 b.v1))
    (imul a.v3 b.v0)) (imul a.v4 b4_19)
  let r4 := iadd (iadd (iadd (iadd (imul a.v0 b.v4) (imul a.v1 b.v3)) (imul a.v2 b.v2))
    (imul a.v3 b.v1)) (imul a.v4 b.v0)
  fe_reduce (fe_reduce ⟨r0, r1, r2, r3, r4⟩)

/-- `fe_sq`. -/
def fe_sq (a : Gfe) : Gfe := fe_mul a a

/-- `fe_sq_n`: square `n` times. -/
def fe_sq_n (a : Gfe) (n : Nat) : Gfe :=
  (List.range n).foldl (fun r _ => fe_sq r) a

/-- `fe_inv`: the fixed addition chain for `a^(p-2)`. -/
def fe_inv (a : Gfe) : Gfe :=
  let t0 := fe_sq a
  let t1 := fe_sq_n t0 2
  let t1 := fe_mul t1 a
  let t0 := fe_mul t0 t1
  let t2 := fe_sq t0
  let t1 := fe_mul t1 t2
  let t2 := fe_sq_n t1 5
  let t1 := fe_mul t1 t2
  let t2 := fe_sq_n t1 10
  let t2 := fe_mul t2 t1
  let t3 := fe_sq_n t2 20
  let t2 := fe_mul t3 t2
  let t2 := fe_sq_n t2 10
  let t1 := fe_mul t2 t1
  let t2 := fe_sq_n t1 50
  let t2 := fe_mul t2 t1
  let t3 := fe_sq_n t2 100
  let t2 := fe_mul t3 t2
  let t2 := fe_sq_n t2 50
  let t1 := fe_mul t2 t1
  let t1 := fe_sq_n t1 5
  fe_mul t1 t0

/-- Extract `(x >> sh) & (m - 1)` of an `int64_t` bit pattern. -/
def ib (x : Nat) (sh m : Nat) : Nat := sar x sh &&& (m - 1)

/-- `fe_to_bytes`: two reductions, a final conditional subtraction of `p`, and
little-endian packing of the 255 bits into 32 bytes. -/
def fe_to_bytes (f : Gfe) : List Nat :=
  let f := fe_reduce (fe_reduce f)
  let c := sar51 (iadd f.v0 19)
  let c := sar51 (iadd f.v1 c)
  let c := sar51 (iadd f.v2 c)
  let c := sar51 (iadd f.v3 c)
  let c := sar51 (iadd f.v4 c)
  let w0 := iadd f.v0 (imul 19 c)
  let c := sar51 w0
  let v0 := low51 w0
  let w1 := iadd f.v1 c
  let c := sar51 w1
  let v1 := low51 w1
  let w2 := iadd f.v2 c
  let c := sar51 w2
  let v2 := low51 w2
  let w3 := iadd f.v3 c
  let c := sar51 w3
  let v3 := low51 w3
  let v4 := low51 (iadd f.v4 c)
  [ib v0 0 256, ib v0 8 256, ib v0 16 256, ib v0 24 256, ib v0 32 256, ib v0 40 256,
   ib v0 48 8 ||| ((ib v1 0 32) <<< 3),
   ib v1 5 256, ib v1 13 256, ib v1 21 256, ib v1 29 256, ib v1 37 256,
   ib v1 45 64 ||| ((ib v2 0 4) <<< 6),
   ib v2 2 256, ib v2 10 256, ib v2 18 256, ib v2 26 256, ib v2 34 256, ib v2 42 256,
   ib v2 50 2 ||| ((ib v3 0 128) <<< 1),
   ib v3 7 256, ib v3 15 256, ib v3 23 256, ib v3 31 256, ib v3 39 256,
   ib v3 47 16 ||| ((ib v4 0 16) <<< 4),
   ib v4 4 256, ib v4 12 256, ib v4 20 256, ib v4 28 256, ib v4 36 256, ib v4 44 256]

/-- A shader extended-coordinate point (`struct ge`). -/
structure Gpt where
  X : Gfe
  Y : Gfe
  Z : Gfe
  T : Gfe
deriving DecidableEq

/-- The shader's `2*d` limb constants (`D2_VALS`). -/
def ge_d2 : Gfe :=
  ⟨0x69b9426b2f159, 0x35050762add7a, 0x3cf44c0038052, 0x6738cc7407977, 0x2406d9dc56dff⟩

/-- `ge_base`: the basepoint with hard-coded limb coordinates. -/
def ge_base : Gpt :=
  let X : Gfe := ⟨0x62d608f25d51a, 0x412a4b4f6592a, 0x75b7171a4b31d, 0x1ff60527118fe,
    0x216936d3cd6e5⟩
  let Y : Gfe := ⟨0x6666666666658, 0x4cccccccccccc, 0x1999999999999, 0x3333333333333,
    0x6666666666666⟩
  ⟨X, Y, fe_one, fe_mul X Y⟩

/-- `ge_zero`: the identity. -/
def ge_zero : Gpt := ⟨fe_zero, fe_one, fe_one, fe_zero⟩

/-- `ge_double`. -/
def ge_double (p : Gpt) : Gpt :=
  let A := fe_sq p.X
  let B := fe_sq p.Y
  let C := fe_add (fe_sq p.Z) (fe_sq p.Z)
  let D := fe_sub fe_zero A
  let E := fe_sub (fe_sub (fe_sq (fe_add p.X p.Y)) A) B
  let G := fe_add D B
  let F := fe_sub G C
  let H := fe_sub D B
  ⟨fe_mul E F, fe_mul G H, fe_mul F G, fe_mul E H⟩

/-- `ge_add`. -/
def ge_add (p q : Gpt) : Gpt :=
  let A := fe_mul (fe_sub p.Y p.X) (fe_sub q.Y q.X)
  let B := fe_mul (fe_add p.Y p.X) (fe_add q.Y q.X)
  let C := fe_mul (fe_mul p.T q.T) ge_d2
  let D := fe_mul (fe_add p.Z p.Z) q.Z
  let E := fe_sub B A
  let F := fe_sub D C
  let G := fe_add D C
  let H := fe_add B A
  ⟨fe_mul E F, fe_mul G H, fe_mul F G, fe_mul E H⟩

/-- One iteration of the `ge_scalarmult` loop: conditionally add the running
power of the base into the accumulator, then double it. -/
def ge_scalarmult_step (scalar : List Nat) (st : Gpt × Gpt) (i : Nat) : Gpt × Gpt :=
  let bit := scalar.getD (i / 8) 0 >>> (i % 8) &&& 1
  (if bit = 1 then ge_add st.1 st.2 else st.1, ge_double st.2)

/-- `ge_scalarmult`: double-and-add over the 256 scalar bits, low bit first. -/
def ge_scalarmult (base : Gpt) (scalar : List Nat) : Gpt :=
  ((List.range 256).foldl (ge_scalarmult_step scalar) (ge_zero, base)).1

/-- `ge_to_bytes`: invert `Z`, serialize `y`, and OR the parity of `x` into
the top bit of the last byte. -/
def ge_to_bytes (p : Gpt) : List Nat :=
  let recip := fe_inv p.Z
  let x := fe_mul p.X recip
  let y := fe_mul p.Y recip
  let s := fe_to_bytes y
  let xb := fe_to_bytes x
  s.set 31 (s.getD 31 0 ||| ((xb.getD 0 0 &&& 1) <<< 7))

/-- The per-lane derivation of the `generate_ed25519_keys` kernel, from the
lane's 32-byte seed onward: shader SHA-512, the same clamping as the CPU path,
`ge_scalarmult` of the shader basepoint and `ge_to_bytes` compression, the
private key being the clamped scalar followed by the digest tail.  Returns
(public key bytes, private key bytes). -/
def gpu_derive (seed : List Nat) : List Nat × List Nat :=
  let hash := sha512_32bytes seed
  let scalar := clamp_scalar (hash.take 32)
  let pub := ge_to_bytes (ge_scalarmult ge_base scalar)
  (pub, scalar ++ hash.drop 32)

/-! ## Evaluation checkpoints for the zero-seed GPU derivation

Intermediate states of the shader pipeline on the all-zero seed, used
to evaluate the 256-iteration scalar-multiplication loop and the
inversion chain in kernel-checkable steps. -/

/-- The all-zero test seed. -/
def gpu_seed0 : List Nat := List.replicate 32 0

/-- Shader SHA-512 digest of the zero seed. -/
def gpu_hash0 : List Nat := [80, 70, 173, 193, 219, 168, 56, 134, 123, 43, 187, 253, 208, 195, 66, 62, 88, 181, 121, 112, 181, 38, 122, 144, 245, 121, 96, 146, 74, 135, 241, 150, 10, 106, 133, 234, 166, 66, 218, 200, 53, 66, 75, 93, 124, 141, 99, 124, 0, 64, 140, 122, 115, 218, 103, 43, 127, 73, 133, 33, 66, 11, 109, 211]

/-- Clamped scalar of the zero seed. -/
def gpu_scalar0 : List Nat := [80, 70, 173, 193, 219, 168, 56, 134, 123, 43, 187, 253, 208, 195, 66, 62, 88, 181, 121, 112, 181, 38, 122, 144, 245, 121, 96, 146, 74, 135, 241, 86]

/-- Loop state after 6 iterations. -/
def gpu_cp_1 : Gpt × Gpt :=
  (⟨⟨2088394271790105, 124132298700638, 339439757368177, 919760250496690, 2222204496528919⟩, ⟨1308365321511402, 372142425936507, 472788737236431, 600593756651710, 2060002804716203⟩, ⟨23312846322255, 728734697816532, 786223712327558, 770620803885031, 272250957381883⟩, ⟨1371489016515968, 557163743398396, 709902031018991, 1823463419217297, 694846069561747⟩⟩,
   ⟨⟨729138309428386, 1602989055537911, 2183939254268728, 2048290847752751, 2124310739241627⟩, ⟨1171469479387195, 304942952590608, 1034717150197094, 927200541933587, 660013115303792⟩, ⟨610996332881063, 2081290219504581, 1115282726231224, 359661083571975, 658884126409745⟩, ⟨835889375581102, 2019498663879338, 1433473600364339, 199647738306665, 1525282040434888⟩⟩)

/-- Loop state after 12 iterations. -/
def gpu_cp_2 : Gpt × Gpt :=
  (⟨⟨1371553898816671, 2142466387096424, 1184599288653167, 351179156789869, 394502237490296⟩, ⟨535599243429965, 2155089228084435, 1816955286112446, 1926514733611795, 2162546273783268⟩, ⟨1080811185401689, 1001782091002906, 1191308083456389, 1727534619291355, 1774103102844438⟩, ⟨539909662087969, 1823934449021344, 1291032103378669, 1307779752828928, 1768979840666426⟩⟩,
   ⟨⟨573511884533857, 1014483585499084, 1029993820101575, 1569718316274399, 1841121436426011⟩, ⟨1535485492589065, 187386310355624, 1659917907258896, 2090183661640430, 1444245407124862⟩, ⟨2161353405708570, 603987035495959, 301763254924151, 1030902538466257, 1245582202834251⟩, ⟨740273398098349, 871521607741061, 1150246349354979, 210687502886475, 680904624188502⟩⟩)

/-- Loop state after 18 iterations. -/
def gpu_cp_3 : Gpt × Gpt :=
  (⟨⟨1032292706823397, 673409786748147, 168812461407372, 1559477888220974, 1138148006632377⟩, ⟨437583810767181, 1716636727813622, 391102716098317, 1239565204151054, 2043280812115106⟩, ⟨505347504717872, 282004644049293, 1281882278727833, 911872455200597, 1030167142468592⟩, ⟨1398566325395208, 37812397180398, 1766205809782629, 1364321931032862, 821240682342163⟩⟩,
   ⟨⟨951072876922356, 795632171348762, 169636914224933, 1015708539503921, 153941060558458⟩, ⟨565345404668834, 56796929473744, 598517752774069, 398663312324700, 96116489706065⟩, ⟨1708687006882776, 1117927503390476, 1020545086726028, 1164855209881543, 1575401398845454⟩, ⟨1315098455977482, 138199166993303, 432779501022815, 1361174507048323, 774449393335726⟩⟩)

/-- Loop state after 24 iterations. -/
def gpu_cp_4 : Gpt × Gpt :=
  (⟨⟨1047539367175009, 994571542921414, 403669153151211, 1784651446388099, 662228507886647⟩, ⟨187827931739011, 2084659404831822, 2192578209330259, 1390333951304964, 1020600928344297⟩, ⟨576396205578555, 204605757607246, 277288193206041, 213656650133575, 1864116118132198⟩, ⟨128889187857402, 1235069553527694, 1197073921602423, 336367764022036, 1778546053916931⟩⟩,
   ⟨⟨195750258707293, 1420297383290059, 555574346115834, 613869381688445, 1241566107262612⟩, ⟨70127888546166, 1108720089375728, 1664210315783811, 1427793182700887, 1251236605166120⟩, ⟨747445983526237, 914637478959062, 559138768355904, 246813181451891, 876474696653715⟩, ⟨1489649408331208, 1736670775916096, 516364001592521, 610841631946806, 882940078089052⟩⟩)

/-- Loop state after 30 iterations. -/
def gpu_cp_5 : Gpt × Gpt :=
  (⟨⟨1767498068924047, 527597840848128, 127999000823426, 154603766156014, 1221962353374704⟩, ⟨1107409672460303, 2075358096438384, 2012918011007452, 944129967904933, 1528541638695953⟩, ⟨189357208353851, 2083175010958783, 38059149145713, 1817140896716738, 2224842658023976⟩, ⟨59158750446417, 1650643713357507, 1742571466410155, 370894943696328, 301120193956591⟩⟩,
   ⟨⟨1460989171300833, 1019958568443997, 361934599056062, 2144955068218657, 534200611469175⟩, ⟨218617709454075, 441277109947121, 441739872582766, 1810807425363765, 512917381168800⟩, ⟨244941548195031, 570748970712763, 1566882378391926, 725321744093755, 1555515618238916⟩, ⟨1099854163947343, 1553469784200876, 1649191968751153, 2237684278001921, 1543581145282428⟩⟩)

/-- Loop state after 36 iterations. -/
def gpu_cp_6 : Gpt × Gpt :=
  (⟨⟨758497328101390, 815631996541062, 1634499893394084, 542479382606908, 1101308092388499⟩, ⟨801531646406753, 1462744029712151, 2065485608731045, 995145368154204, 799002481442348⟩, ⟨980023681836856, 1772018711212166, 1301308189898808, 536448991531599, 2059914510035230⟩, ⟨2054166140966555, 994303823880883, 149809723068691, 1635739055797570, 326392507810022⟩⟩,
   ⟨⟨417114729850072, 1580032324459491, 8960396275597, 2247563442987754, 386388157129815⟩, ⟨449329189414489, 2075889426285550, 96418924858502, 606934214177092, 2164965720673130⟩, ⟨1979405658123549, 1078633153629251, 1860305572956931, 895201188065045, 1586220970586713⟩, ⟨1658418682554962, 2157434798781133, 424004435792243, 1445218243796069, 232269975497902⟩⟩)

/-- Loop state after 42 iterations. -/
def gpu_cp_7 : Gpt × Gpt :=
  (⟨⟨2220266828502170, 2158230058933469, 1744177605175231, 864034978279879, 800870185420661⟩, ⟨2028012482589921, 2181954680251005, 833852443176694, 1224224097627242, 1260778086288856⟩, ⟨59269147309777, 1586090929063254, 445285851355173, 1679223721168484, 930373462941703⟩, ⟨936547827612527, 865691835147254, 2165999564924945, 2222991386693697, 940873487188352⟩⟩,
   ⟨⟨1913017674083899, 262998248925287, 1647791970541108, 365046856192208, 1950246717276298⟩, ⟨1456580850377875, 2006640265499681, 1800116590019321, 1124317108419714, 1478532135043558⟩, ⟨1102519377583296, 2189435980769524, 1009871801822864, 773146330472964, 1440861316450781⟩, ⟨220670097133705, 2246989041437944, 820016505778521, 1207260821796795, 1265281709769774⟩⟩)

/-- Loop state after 48 iterations. -/
def gpu_cp_8 : Gpt × Gpt :=
  (⟨⟨1003027809364123, 232182951517003, 2146772966376035, 455481041812179, 1146958877538037⟩, ⟨619608488627773, 1688357706591531, 1094915159429354, 561421873691699, 1400542353023396⟩, ⟨1105898028661114, 741173160706674, 1270051463638627, 2015892280306417, 131783335007424⟩, ⟨2015911600288034, 1540509619642491, 1397596507667376, 1550096091422964, 440013804917615⟩⟩,
   ⟨⟨606782013309636, 1344421470292693, 1968412364298141, 1218013057433475, 1694072399908556⟩, ⟨2005655639147148, 119837544603935, 805539592724983, 1286447515508727, 1195969987277751⟩, ⟨1830471683579095, 662868103272440, 303281816256604, 89970911450782, 1851618963524675⟩, ⟨1765496202280919, 1097980133523472, 357657613696927, 260094910674631, 1047493409732192⟩⟩)

/-- Loop state after 54 iterations. -/
def gpu_cp_9 : Gpt × Gpt :=
  (⟨⟨19576999462889, 2114737729534620, 1558924500188113, 227504151266524, 741529953492333⟩, ⟨1157044059789727, 2138919784758273, 1616383548807636, 1819887381705470, 404006904561361⟩, ⟨2131707968393807, 265202929486937, 1141477701224893, 1521314988703867, 1641860067061995⟩, ⟨2024551036733704, 1638760287365035, 815520946248711, 1172935759006893, 695688387611853⟩⟩,
   ⟨⟨1002509282248000, 639998686092320, 2029303789264266, 1824059658045419, 630994529078482⟩, ⟨1357543211140407, 1402797539616380, 213118108242138, 1691425235873591, 2182411390847132⟩, ⟨1237908087181904, 902832515752319, 209790892204622, 459604531513162, 1560005658607320⟩, ⟨2025254532789102, 1671348579690619, 255493789041940, 851195168840451, 1220149049383804⟩⟩)

/-- Loop state after 60 iterations. -/
def gpu_cp_10 : Gpt × Gpt :=
  (⟨⟨272128388969246, 1231492321887956, 632634095175047, 982525155588262, 424954113027568⟩, ⟨1804808423120635, 1252757013734400, 2084093977091651, 45231581687010, 1283981734896954⟩, ⟨1507801462777909, 1759502043739577, 1766735894582526, 1099831685928399, 1905842923508217⟩, ⟨727698828531041, 584288106986085, 221463928919460, 1983204174067442, 490359500227648⟩⟩,
   ⟨⟨1969938224956424, 2163985647897152, 1862363876253335, 817597445819768, 349034557016634⟩, ⟨807237417938364, 2208996720526390, 816619136226390, 1496052893004446, 2238806206587934⟩, ⟨2214122982877502, 1509327070525671, 1530759381753529, 2089011483514280, 1266914586125736⟩, ⟨778864874551658, 1063313796123336, 867616168304544, 2205198782375468, 1850031659316680⟩⟩)

/-- Loop state after 66 iterations. -/
def gpu_cp_11 : Gpt × Gpt :=
  (⟨⟨775829750710872, 997365479687073, 435623178002231, 1903621757931570, 811690141509309⟩, ⟨587117599344840, 504610166215568, 1262381490854177, 914853996191141, 1462529923426797⟩, ⟨984319553649851, 1274012050860233, 1619892735428300, 901857186961863, 2118907948931036⟩, ⟨1108302873108980, 655357064455333, 432269068120011, 733870476201692, 716994517493461⟩⟩,
   ⟨⟨1320058443130072, 458609795951312, 973178894234656, 1270905690889969, 1425554183430207⟩, ⟨119899171294591, 429438280504165, 1798727278096381, 917911002243709, 1487154757050984⟩, ⟨1114468688654130, 316670424966681, 1996610787328188, 1452348281447255, 2160362472432809⟩, ⟨2049863513679484, 93940627919732, 1373724090788440, 171502746510745, 1769423742981085⟩⟩)

/-- Loop state after 72 iterations. -/
def gpu_cp_12 : Gpt × Gpt :=
  (⟨⟨713815432224994, 1442908561377350, 314922519670220, 265343327571226, 583524627325397⟩, ⟨411831874916170, 1224967106040601, 1353479603857918, 1140091111492030, 1100785783732935⟩, ⟨1210810759483856, 1464770473633254, 1303630508802599, 1886957725388153, 232804792546893⟩, ⟨80459545035089, 387882817680401, 757992233025063, 273775996170424, 1084873838045109⟩⟩,
   ⟨⟨1349960105146147, 1089727212554702, 1292896483304248, 1186979218327432, 1751938716267338⟩, ⟨1644329258314394, 1531859299415667, 1363088961150990, 1015183666236219, 191744421768783⟩, ⟨788607907305472, 2021543848132648, 2109220146974905, 745169675919018, 783704244546912⟩, ⟨689175571769435, 931259731399725, 2236363175336876, 549490131289775, 156187010034564⟩⟩)

/-- Loop state after 78 iterations. -/
def gpu_cp_13 : Gpt × Gpt :=
  (⟨⟨146501734383213, 654441017761085, 1413266651071082, 673318049310380, 1221356617812923⟩, ⟨1963527579137017, 585288247310519, 1709357264122690, 1261763429143609, 1796067828332820⟩, ⟨2194086588815593, 2125260464808064, 792705655047356, 1300254701746741, 333881850979385⟩, ⟨1348193471355413, 1643292584025025, 1395076893231876, 1589748279528889, 880666119441584⟩⟩,
   ⟨⟨2042208289023500, 2052865142925794, 1899730130068059, 401306550445746, 1560441760330502⟩, ⟨1240569908546924, 1955090606547891, 941389155382838, 2216570389785564, 261130920353850⟩, ⟨1354930027090657, 867762639578464, 712813304327846, 598723102234581, 612705379092697⟩, ⟨150738694542945, 1916259947145835, 1439622521222916, 512623367373893, 363805445045195⟩⟩)

/-- Loop state after 84 iterations. -/
def gpu_cp_14 : Gpt × Gpt :=
  (⟨⟨312327235309781, 1361207343512, 2152258677967409, 1838460279909520, 1370942708381896⟩, ⟨1901670786283732, 807536931252384, 1812231256590678, 656211424239980, 1659671327843337⟩, ⟨528488683242104, 1351016656179311, 2048080796265828, 1477821879247811, 84924230678115⟩, ⟨2167489006974874, 1111710018577090, 937701743282401, 263848480400423, 12428598904547⟩⟩,
   ⟨⟨1505782714879885, 32281498276430, 467297524755152, 699086293593214, 59581261660621⟩, ⟨1246613954003611, 115197183927757, 995753232681845, 2165431771259525, 2217858633736401⟩, ⟨1097929437968603, 1713882927149022, 939399754264653, 1883601947104979, 2216308230150561⟩, ⟨872590673610040, 2175435233411022, 1094799662554047, 166129767593189, 925849022664579⟩⟩)

/-- Loop state after 90 iterations. -/
def gpu_cp_15 : Gpt × Gpt :=
  (⟨⟨1240885969712799, 252496959541748, 1609172811184842, 1269719640374114, 1481947702783328⟩, ⟨1690830116679870, 1734232489669976, 1245118587755464, 1666791354957070, 1188035815917143⟩, ⟨1614677763768958, 1134563324965575, 503319676501155, 1457030081280694, 1429993925476683⟩, ⟨630184324211379, 187596921337475, 1005482212363431, 1829431446034343, 1356137335033334⟩⟩,
   ⟨⟨596109386432872, 1855698219474237, 1498872171563670, 2100385609938484, 788343658606400⟩, ⟨981595971144692, 1652671944391787, 1514343629694904, 769824841520867, 447370543645670⟩, ⟨829663989597537, 281633403927146, 636646606125337, 316577561179648, 2177405725922205⟩, ⟨1695780566380019, 855063956873009, 2183332372285683, 1029253628513397, 1122882351280260⟩⟩)

/-- Loop state after 96 iterations. -/
def gpu_cp_16 : Gpt × Gpt :=
  (⟨⟨835056055304266, 1084958351401942, 1110498833854185, 2046294029051602, 1850984406329765⟩, ⟨1617782173013903, 1102398861957435, 362721554314750, 1225434029978184, 1111498367474434⟩, ⟨1307162419240531, 449072815051019, 1685800320403921, 239768696464874, 1693853238952701⟩, ⟨593246422667116, 190545850976817, 1657289735839881, 1598878524444050, 1397113451549982⟩⟩,
   ⟨⟨1996178722246405, 1208815796447937, 1404160290315799, 499269530492849, 1696316729670824⟩, ⟨464914794476172, 1733142579512267, 456599857142447, 2060110545652566, 1769293946313753⟩, ⟨150843057486863, 111000446101869, 1513836716034922, 1862397122017025, 1326992067071393⟩, ⟨500295467486703, 2110185424280043, 1105107876524490, 899472873646246, 1797820071272428⟩⟩)

/-- Loop state after 102 iterations. -/
def gpu_cp_17 : Gpt × Gpt :=
  (⟨⟨1092742250566604, 1096846401395156, 616953585987887, 180320707120953, 1266598472804211⟩, ⟨1677764107622500, 974922832794527, 556651618707095, 510905222405922, 1765833599279050⟩, ⟨2181579805684105, 450985728198185, 1067394696918379, 1372527512336637, 755254206358834⟩, ⟨917231128365257, 2251091052871821, 2120713162344825, 1061543512129503, 570275570211615⟩⟩,
   ⟨⟨3431512261630, 279637158980231, 1115131988320570, 336861408257211, 309298638845065⟩, ⟨371198371511624, 353504111684458, 1148303515289123, 426745741625158, 2011221034602446⟩, ⟨121799995757897, 2179232442106498, 222073059737879, 1647245054240038, 453778657895903⟩, ⟨1021858410369630, 1296525488006564, 189093695791483, 646819924727026, 1536204276172505⟩⟩)

/-- Loop state after 108 iterations. -/
def gpu_cp_18 : Gpt × Gpt :=
  (⟨⟨359102149058867, 1109137821037524, 319687021230186, 1782266542687927, 1598863450081346⟩, ⟨943927353988888, 683470210427744, 1291553158577148, 2209938659266231, 1287574114771233⟩, ⟨1096258431525788, 1860461462127313, 1776189815808559, 618332972221116, 441910111947491⟩, ⟨2145577090894798, 456845687881412, 2002159527734742, 430142234760586, 326358829760151⟩⟩,
   ⟨⟨735401554744938, 565863228318476, 513987405279347, 1841984076989592, 458376294266694⟩, ⟨976674983044245, 1153133852340945, 1448480688373800, 1420551587372091, 1092025424576637⟩, ⟨1141186975701526, 383333845853437, 2245289644721148, 196525188055325, 2220259156602028⟩, ⟨1984308143494384, 1351268820358307, 1996832048992675, 2250415426195028, 826232440835260⟩⟩)

/-- Loop state after 114 iterations. -/
def gpu_cp_19 : Gpt × Gpt :=
  (⟨⟨2146695411799127, 2107945970810126, 1531442000909454, 1844229375884487, 2120255256099085⟩, ⟨1620744507968559, 1394961615750525, 1094968414495374, 960404574236486, 880350827803840⟩, ⟨802967707097263, 2097406392473701, 1172074770909171, 856231523009558, 2140511936169903⟩, ⟨1404452588118272, 390753687218647, 151143816175559, 1991172036602124, 1358343960082378⟩⟩,
   ⟨⟨1975022825894949, 1437918400502365, 2106383654255696, 1739859998028207, 2111889238041720⟩, ⟨1136219356527473, 245165415529211, 1686698498899335, 1237435733500458, 1427027953055541⟩, ⟨548249438111483, 1590111756528026, 837713291568903, 223215712645596, 78023052038023⟩, ⟨501513042623899, 1530611087263915, 1924601633788795, 2159854888277524, 341701238227481⟩⟩)

/-- Loop state after 120 iterations. -/
def gpu_cp_20 : Gpt × Gpt :=
  (⟨⟨1767902132116831, 1238193952618707, 539816244444607, 792497932927933, 201549618442062⟩, ⟨1798937211202122, 732383442799746, 1532305596950009, 1871568923190960, 896516347800305⟩, ⟨2125296459700019, 2145206774497671, 329838729831073, 971024365199069, 250343829523213⟩, ⟨872988655530623, 1891860474159740, 209844062731977, 1138397043197289, 1255984198794904⟩⟩,
   ⟨⟨2077133731946482, 455500928255940, 1934645689114827, 1160396847610299, 451147593415487⟩, ⟨1803299050670408, 1275136046619423, 1710812444060837, 278349561944998, 1678453137093824⟩, ⟨97834471249051, 737286561704528, 1052814966765779, 1184882792627032, 1792493880020678⟩, ⟨1275116961029618, 1908893095286421, 1322533207633198, 717550956455796, 1446585281111646⟩⟩)

/-- Loop state after 126 iterations. -/
def gpu_cp_21 : Gpt × Gpt :=
  (⟨⟨810291601100038, 327537322287514, 68507833078634, 2057509226134678, 1312955108922148⟩, ⟨1277135078011555, 335575867504813, 1107792958158662, 2192533224370901, 500192077264299⟩, ⟨1829717498965252, 1874147458323980, 1889884238139762, 1594569953098175, 1737680321219227⟩, ⟨416896168090079, 447631943026328, 1659140601918371, 1875791555760462, 871065673458424⟩⟩,
   ⟨⟨950852542231794, 1403689982637919, 1248280433469661, 377634999910860, 104795711098773⟩, ⟨530909034373348, 669208418130982, 1269217031782334, 2167729022714645, 1224416371858971⟩, ⟨2009128654686711, 1850685345254786, 1220547766486675, 1324382153549309, 1792011466701781⟩, ⟨1456566835574406, 126408520378414, 1985090249757506, 752909318400872, 1734004007450823⟩⟩)

/-- Loop state after 132 iterations. -/
def gpu_cp_22 : Gpt × Gpt :=
  (⟨⟨1757037680367333, 1241492560558778, 994176834408673, 307854486977510, 1568437220122590⟩, ⟨109632490506625, 2168366889892013, 1831791185035286, 336798595312381, 1774882135789484⟩, ⟨407240089422727, 2129371955253882, 8545606153551, 2155061702739404, 525220477049678⟩, ⟨1090380630646868, 194300245108803, 1247214429441477, 722032364191837, 1647327504436174⟩⟩,
   ⟨⟨2163412092893665, 1094137405235119, 1379339564133140, 361068624126929, 650173483213986⟩, ⟨66877422501464, 1205029181308199, 1621803190804847, 575547716619931, 1972454624183929⟩, ⟨67482052630082, 347995532835934, 1280959136522074, 1478394531547210, 1644936983463582⟩, ⟨1186294528635381, 2121823857133310, 2100171436626074, 1891683216162786, 1078729897916941⟩⟩)

/-- Loop state after 138 iterations. -/
def gpu_cp_23 : Gpt × Gpt :=
  (⟨⟨722111063154145, 1335841503798127, 1299440298121922, 603103401091934, 1285172873328755⟩, ⟨288745623995640, 1509326541573660, 2219437271938395, 507460334498054, 1046182016790754⟩, ⟨242419916837837, 66347296137309, 613198380163432, 1283243608251855, 1404765359527497⟩, ⟨596133765913995, 2231781378721639, 1476351060681745, 467090477757553, 543478692685667⟩⟩,
   ⟨⟨2027079563530053, 1250529611486766, 1773355715510889, 1929872520251318, 893145315764994⟩, ⟨331403663543102, 1629505663058846, 1445839396037419, 485169425896314, 2218694158022534⟩, ⟨243943652724428, 1800698296554878, 1942462052830497, 1976530234377305, 1186393081578147⟩, ⟨1851841120699112, 966863400306904, 1201618959839259, 1919597613242475, 1655335842449569⟩⟩)

/-- Loop state after 144 iterations. -/
def gpu_cp_24 : Gpt × Gpt :=
  (⟨⟨1954392790374283, 816636868524150, 1546657923186497, 1398446852564247, 1898063086487216⟩, ⟨156135186172181, 295998035167314, 1900628186847096, 549070488142377, 1244891149322749⟩, ⟨962398497514949, 132690432383225, 1575997287523451, 790923772215866, 1761024525101458⟩, ⟨17574034951156, 1874980562740417, 1993253955751735, 1872435105478486, 1337151958015979⟩⟩,
   ⟨⟨1857139273290895, 771880760202838, 1428931204113817, 721823293765680, 1524160779326321⟩, ⟨2066200641001854, 1667372906115682, 1789014414037638, 1244414920552804, 349467234069132⟩, ⟨1691880190251745, 1878737613355422, 1521057397921171, 1181340212122975, 78615382669714⟩, ⟨850090158826391, 1651260544622402, 1161299552130800, 560586127825973, 75368803659258⟩⟩)

/-- Loop state after 150 iterations. -/
def gpu_cp_25 : Gpt × Gpt :=
  (⟨⟨336356567416574, 1329995214993246, 947388744645308, 2187523805868084, 1671727586627378⟩, ⟨2126712013305928, 2245034999079228, 803026586071884, 1795466409468759, 1522795471071025⟩, ⟨1247637545691007, 1005971114905405, 1772130223810393, 953867756627826, 1266402881685968⟩, ⟨1417753113099764, 1032909921091030, 676317754725402, 621572539037432, 876929930115808⟩⟩,
   ⟨⟨789513122865717, 1807224817260137, 1452938141306108, 2222575092286425, 684080787411023⟩, ⟨2197612740954155, 1283631176984999, 465286063258914, 262597811184313, 1787458658653218⟩, ⟨1792029857633628, 618393023025466, 1860656916099682, 400851936667151, 720206261701252⟩, ⟨1744662226104073, 1001964144458835, 480353002860601, 18899669366717, 74544861221771⟩⟩)

/-- Loop state after 156 iterations. -/
def gpu_cp_26 : Gpt × Gpt :=
  (⟨⟨498433865127727, 746138999608522, 696736259297159, 1571327923054526, 1896243996556221⟩, ⟨1826261440925692, 937873132694211, 687004487042113, 142736658741073, 2129954748948875⟩, ⟨784897449767091, 308032645163942, 945309160998715, 1269514505853921, 74856856370581⟩, ⟨2041056516137578, 142429003015477, 2231334206677076, 602128219273799, 2193897570358852⟩⟩,
   ⟨⟨1698142423288691, 1899002474453616, 1911866332501867, 1753025202734276, 730651507915437⟩, ⟨1476718070117727, 860997602543059, 1816890794867804, 1000411118781819, 948548189433266⟩, ⟨2138786045530145, 474132982108555, 176338352697556, 701615089009212, 539206881481150⟩, ⟨572480485179686, 2095096451256804, 412009362923764, 1569939866607664, 195208095985015⟩⟩)

/-- Loop state after 162 iterations. -/
def gpu_cp_27 : Gpt × Gpt :=
  (⟨⟨532489949118762, 374000222133584, 1826054765208388, 1561362387844574, 853597058577475⟩, ⟨1650628136263903, 1379892175812695, 698048072180355, 42022871930619, 776075137617544⟩, ⟨1630119928188066, 747323364197305, 1977961413109979, 1584292340601410, 130433874739906⟩, ⟨1269392084650012, 529851885632730, 471523575472469, 118708987544253, 463416768791247⟩⟩,
   ⟨⟨2033896864448132, 276716552081310, 797562735022723, 1368915397365917, 180345126536392⟩, ⟨46008332598812, 893118334010656, 1452890500531320, 2129687666448924, 239217993247613⟩, ⟨877818332270102, 2017376950878733, 1891836824567656, 1806423894010162, 1227498388642561⟩, ⟨2144235262073068, 178854363966625, 444563356950770, 2048259047048600, 24970943176980⟩⟩)

/-- Loop state after 168 iterations. -/
def gpu_cp_28 : Gpt × Gpt :=
  (⟨⟨260107598844000, 974079867340114, 486415865508091, 235466571855764, 493296638803115⟩, ⟨965978395884865, 1216722774069232, 806918357736110, 2110553798134019, 761729790183708⟩, ⟨1151741326937527, 45791190047298, 905379330265011, 260774990665787, 1770734195531034⟩, ⟨2077711384015287, 1919587837715501, 452307361717487, 1630758449466520, 1268363405937206⟩⟩,
   ⟨⟨948935752883277, 1181551310462434, 1875432581733007, 1863974022191015, 1093976816978212⟩, ⟨62504964915208, 176335904721830, 1875974940572945, 1777253715618634, 1258073475783050⟩, ⟨311925662597451, 651891365597269, 867137876014898, 1831770626539618, 1103007450055229⟩, ⟨65845745195949, 635115407969760, 655902005105109, 666014653252929, 276563934620274⟩⟩)

/-- Loop state after 174 iterations. -/
def gpu_cp_29 : Gpt × Gpt :=
  (⟨⟨927316630545467, 671129875077090, 1154342839959945, 1829218713983386, 528636083259684⟩, ⟨1435224651205343, 1456880780602135, 133315156104012, 1076973635163712, 978500651074170⟩, ⟨540904499391693, 1055107352152975, 1884362189249973, 724925506677396, 1943301899000024⟩, ⟨1422167662746446, 1717235932728536, 1907360272419841, 596741133079562, 1868075863350511⟩⟩,
   ⟨⟨1752102814620381, 1608630096260661, 1876065630799080, 450076369352835, 139342041278013⟩, ⟨2122195758593055, 208991216496635, 722934280863094, 1446294814552418, 149457489345449⟩, ⟨1232298956675890, 2131807217293664, 2225036455696739, 522602077020959, 1619123435834669⟩, ⟨1367878978423176, 334811675782999, 197233446049453, 78051049600025, 2026451990089970⟩⟩)

/-- Loop state after 180 iterations. -/
def gpu_cp_30 : Gpt × Gpt :=
  (⟨⟨1980295078085635, 1314861249560415, 144414915372834, 1298908583816553, 2192398608405321⟩, ⟨1480536791381262, 868902633902237, 1427626302582596, 1691915508464518, 1150306670940563⟩, ⟨1612288553480532, 321564955244287, 1405849105585568, 1478363395847730, 453819463567160⟩, ⟨70979144574094, 1399872038765487, 895618217917388, 1721330713227125, 1958005124308251⟩⟩,
   ⟨⟨1659587706366287, 703023295244615, 215730963448483, 1923589903369966, 1723702798114787⟩, ⟨138686532056187, 1129020712555771, 416507995040718, 2208234118364497, 1219985432255576⟩, ⟨1931342961262700, 2034654102260775, 983021413152027, 1705697560792414, 1545556519046570⟩, ⟨1654932792598414, 1084161406997061, 981357093789180, 1059232002960299, 295791305173014⟩⟩)

/-- Loop state after 186 iterations. -/
def gpu_cp_31 : Gpt × Gpt :=
  (⟨⟨1523063461757245, 1336988491515776, 252032163646919, 1509861650198161, 1991402378684180⟩, ⟨613627466828927, 16536726571500, 996827366422353, 707617608445733, 252385285368104⟩, ⟨1471219852465877, 1132565616899263, 652864665553982, 253479335902441, 727242062458079⟩, ⟨1053017847239049, 1223333653229433, 1904033395529814, 627650874964658, 1997892141777811⟩⟩,
   ⟨⟨1532724668657043, 1601366158279078, 2182619542362437, 1226785042076979, 585441555705570⟩, ⟨1778226701168046, 786427195987283, 1266884761696196, 424284985625950, 451898998884674⟩, ⟨91558223676903, 1211951838242885, 1031146369475243, 160024799091138, 275971743490310⟩, ⟨2057897567129433, 449244839809914, 823718679306744, 230555190253546, 488305245718011⟩⟩)

/-- Loop state after 192 iterations. -/
def gpu_cp_32 : Gpt × Gpt :=
  (⟨⟨736812631600693, 1276584813596904, 121027092940655, 602132729568444, 1006114436938212⟩, ⟨1936989027546647, 1589798252106065, 79761522768810, 695928186836808, 452210697776647⟩, ⟨432208645300109, 1545200003058605, 14196975218625, 1054693565212225, 1882037287760508⟩, ⟨2244201955014454, 113449495845789, 991384553486651, 1060143148222872, 1588700761995242⟩⟩,
   ⟨⟨945480202502108, 1302757272542324, 1168679203763149, 532298723518525, 1468456553592590⟩, ⟨2151339702242595, 934181730254735, 1549774224005684, 739872800091170, 315804436331129⟩, ⟨1978167806380227, 2027130995054313, 486218381321089, 1447920735688794, 373175415566373⟩, ⟨1267800586226754, 1976393748950246, 713064345479533, 326024766183876, 496199203430521⟩⟩)

/-- Loop state after 198 iterations. -/
def gpu_cp_33 : Gpt × Gpt :=
  (⟨⟨218542110272362, 898357229914930, 2249399673335333, 288163778948698, 55191627833855⟩, ⟨1800097583781613, 489215232677893, 1162563904578715, 585475119499717, 1198693284811095⟩, ⟨949812428308467, 2184711735908804, 1537419869428563, 1160320719135192, 1661158877469526⟩, ⟨1998862673224928, 1153539051634411, 2182645773604867, 799057262193440, 377755142595119⟩⟩,
   ⟨⟨779972266820539, 758240500478458, 2231421155788155, 1502435760651359, 2208421083605151⟩, ⟨1239964436746692, 2187467020988133, 1143085860144983, 845696308758497, 132114650200594⟩, ⟨1358431663254729, 2076235899719033, 1425240369729146, 815381058450854, 1236650374650317⟩, ⟨543891667821032, 1181609408230769, 316585493033675, 731779993198752, 475586535009306⟩⟩)

/-- Loop state after 204 iterations. -/
def gpu_cp_34 : Gpt × Gpt :=
  (⟨⟨2194775163920706, 858781158053674, 384326147711525, 879917933510868, 2162509515715871⟩, ⟨1743282988647318, 2243003384398652, 2158801263817981, 2043937213947279, 233536209173689⟩, ⟨420615135194949, 2069716765967332, 89608283088456, 192869552861810, 22806733855103⟩, ⟨2161574552948207, 1114973431360960, 666162330981089, 769506822616288, 2105331403263777⟩⟩,
   ⟨⟨608656441971843, 982195189349673, 1817641351303518, 806071597060313, 710064514066060⟩, ⟨1945455229638103, 1237412106086743, 646076950756957, 1838413132752611, 134689061762809⟩, ⟨1865076287363343, 1593895699343152, 1210185122519437, 76587799026857, 259393142457220⟩, ⟨1697278019555509, 1165948852982645, 2139940202216065, 809573421353474, 169662643666142⟩⟩)

/-- Loop state after 210 iterations. -/
def gpu_cp_35 : Gpt × Gpt :=
  (⟨⟨563937157215309, 395801947586858, 676890371336422, 1762286662477160, 818185798364791⟩, ⟨366445261742796, 167851035710768, 1073311431180708, 1309956333353146, 80533625733847⟩, ⟨1663564255642665, 1039450999543371, 1237853187862790, 626015287505034, 157896713664907⟩, ⟨1156198714340496, 1471893024279117, 1755245523184626, 37994654568892, 2185642860626275⟩⟩,
   ⟨⟨846756036740440, 2001939909330722, 1114789075018578, 2218470244075383, 1341155974957873⟩, ⟨429762204212212, 115755674512439, 877314463848763, 710789191801348, 2145565686402038⟩, ⟨2026881494675312, 2129297743650957, 599303112546023, 509674009725193, 848429031975423⟩, ⟨1402976111859335, 2190355560130918, 950997962851132, 2140203083001595, 688465082101330⟩⟩)

/-- Loop state after 216 iterations. -/
def gpu_cp_36 : Gpt × Gpt :=
  (⟨⟨1507745019054470, 1180156695636016, 1494511853861356, 1159651476359104, 2115317331285132⟩, ⟨1190459995292264, 1353306586550468, 59500317365682, 168190311441592, 2072389348649655⟩, ⟨1139513541540722, 1928565062432582, 943238267255385, 42243891701661, 2224919689413860⟩, ⟨1586439824890772, 444413093255423, 303008219883251, 1710548625142286, 172173113284082⟩⟩,
   ⟨⟨659419156168298, 1926238112750280, 1403898715430820, 1933570558530632, 368946217836080⟩, ⟨2076059145851929, 8128674745783, 111558619306315, 1729073624069914, 212679936239524⟩, ⟨1938986686820091, 985468929297918, 998554957072778, 632430954175023, 911578859569211⟩, ⟨488134736673379, 1429608173092700, 1127781441417587, 697412518432523, 1958459926913076⟩⟩)

/-- Loop state after 222 iterations. -/
def gpu_cp_37 : Gpt × Gpt :=
  (⟨⟨1855285442383710, 493706572295528, 223047809593321, 316244957012537, 309958172896398⟩, ⟨811729124410007, 943993471794782, 671880989179850, 81215548912193, 1686969844373460⟩, ⟨521648646593002, 2033297702298663, 1778087170717576, 1983889339372886, 950841734069409⟩, ⟨1242008818602403, 343509806664897, 689444367822141, 1767182458832946, 2153332589428090⟩⟩,
   ⟨⟨1422935604417589, 1257686591170976, 2107424386933934, 1607463306991374, 1518311438083270⟩, ⟨1411444728023970, 1682604698660569, 971020558927690, 387223749795105, 2133787988669533⟩, ⟨228719576838181, 497563393964347, 1245111701837129, 2247845966636868, 2180655492565066⟩, ⟨2029151674335564, 693500678731952, 407503467751598, 618637857483691, 930191151938100⟩⟩)

/-- Loop state after 228 iterations. -/
def gpu_cp_38 : Gpt × Gpt :=
  (⟨⟨1035301959765887, 1587117029803570, 2051371828266378, 1393409913689181, 1300530819671219⟩, ⟨435146607853020, 1556569168736365, 269820227177398, 648623135488719, 1938345774276623⟩, ⟨47603632628133, 1433402612493469, 2033154658617932, 980575740433469, 1166502945116899⟩, ⟨852524618738080, 270366514014141, 404792561618985, 916652321992025, 460766052403380⟩⟩,
   ⟨⟨1776378124380971, 415817713040494, 1292685028883139, 472084467698700, 9871331103238⟩, ⟨1620935918897290, 1806943414101504, 936198259123625, 1113445818082528, 572071328731560⟩, ⟨2084363625290962, 384728152364008, 1375090411892446, 487779426564528, 2152354168864367⟩, ⟨1838063570219403, 2190549595191244, 1785171441296163, 473299722041461, 330833904899792⟩⟩)

/-- Loop state after 234 iterations. -/
def gpu_cp_39 : Gpt × Gpt :=
  (⟨⟨2216019157443564, 328611012904164, 1806253838698624, 252829167459181, 1537847961130748⟩, ⟨1875247799101307, 1905501420001271, 899268950219824, 1281093147314541, 956398961758922⟩, ⟨2028668335854952, 2094377371625386, 915720932325770, 966762676951145, 464658957999151⟩, ⟨1055860067800310, 1798565304483404, 655304087225570, 7397205308804, 1055702027358490⟩⟩,
   ⟨⟨148952613039779, 511550405428006, 240671109514310, 984124874922744, 668031522401590⟩, ⟨1130754710539798, 1984411427074692, 660310670839414, 932797746396362, 1553279215529163⟩, ⟨1959277015292058, 1091715107394615, 306583468983804, 529143380097716, 548989002329101⟩, ⟨26111244008934, 872007500781027, 1705940524300619, 1768462229977330, 1116616036984480⟩⟩)

/-- Loop state after 240 iterations. -/
def gpu_cp_40 : Gpt × Gpt :=
  (⟨⟨513323420720171, 263031944746492, 100496374193628, 1420003524617669, 1909903964131767⟩, ⟨1391541446311056, 2163717239236202, 452600863137740, 1091716667936427, 2196561260358500⟩, ⟨1480103396616067, 559847172579194, 660572981888100, 1584879213747835, 1146373586306989⟩, ⟨740612244452320, 745986934618333, 1621693561839721, 188068717743602, 743575447714796⟩⟩,
   ⟨⟨1041552966534644, 849751962030658, 1962801448292232, 755476814905156, 232713998516543⟩, ⟨2004632677613946, 1754328837566512, 1318893413443874, 1377558517768033, 734740199222088⟩, ⟨931365627441395, 1619723124466187, 116222326107276, 361536674277081, 384277028641203⟩, ⟨831666427872067, 108343966015824, 170891977980483, 1272476779429422, 482349509568095⟩⟩)

/-- Loop state after 246 iterations. -/
def gpu_cp_41 : Gpt × Gpt :=
  (⟨⟨73159097461037, 2210098572765298, 801626942538856, 288737245874576, 1485797542719227⟩, ⟨300761448408665, 1272954750026216, 544863301821619, 2178217519262052, 1057736395274357⟩, ⟨373460326932011, 785240009521987, 903330403534560, 280119995610822, 1566034347758701⟩, ⟨1660719399263969, 302086973498340, 100938067415350, 1243331016547863, 1974878322239236⟩⟩,
   ⟨⟨429504379728904, 586851502879441, 877148075789098, 256040553612191, 469605617257131⟩, ⟨765697556635796, 1102159155376461, 1513732946283410, 1509847039779973, 660279239613676⟩, ⟨121193234415315, 1650662484833974, 2090566396447664, 2134598168148648, 1582798353669814⟩, ⟨842075111619750, 1000708737117521, 877449987742699, 989800570177490, 51490818996174⟩⟩)

/-- Loop state after 252 iterations. -/
def gpu_cp_42 : Gpt × Gpt :=
  (⟨⟨1519108703060136, 1626472040015918, 1785786614851199, 33808453181506, 34005570867771⟩, ⟨599303208722383, 2027203288826874, 841885074120458, 33287022661916, 1296695890201477⟩, ⟨122432888239952, 735829818832163, 1400191952933953, 1344477263328310, 1258408100284507⟩, ⟨1541181778546078, 516373687908702, 754776534901716, 2238662477829406, 1212851679573017⟩⟩,
   ⟨⟨193911940790834, 1022276883085288, 576460342581547, 1008766156909406, 477860326541230⟩, ⟨1949509922745276, 1726536620688870, 584276850845351, 90242074653194, 672506923741903⟩, ⟨814399306230919, 810141850558336, 276950238634611, 474498503576062, 559189247043804⟩, ⟨2099424922921415, 595381971625082, 49695043578056, 334921172233724, 351282424567391⟩⟩)

/-- Final Z limbs of the zero-seed shader scalar multiplication. -/
def gpu_zfin : Gfe := ⟨1401230368099434, 2219926182723823, 1583437848249314, 2164928985924395, 1506003893219354⟩

/-- Final point of the zero-seed shader scalar multiplication. -/
def gpu_pt0 : Gpt :=
  ⟨⟨1063200823453280, 1707916011866103, 416949751365522, 556996690980133, 2225958155331140⟩,
   ⟨931791816345018, 166440642916574, 1296728585406158, 818811642191535, 1911803662303301⟩,
   gpu_zfin,
   ⟨510760605433059, 1124745023766553, 1090444009441102, 942320197915359, 1501108186314447⟩⟩

/-- Loop state after all 256 iterations. -/
def gpu_cp_43 : Gpt × Gpt :=
  (gpu_pt0,
   ⟨⟨663701342962927, 1147886543904154, 168892551090190, 738508391253562, 765082688415242⟩, ⟨1696281468486960, 606987671853471, 1449503649372708, 1084770788886141, 207792242376537⟩, ⟨172300226958225, 44533050514333, 723526274989518, 1685034216379370, 31447825548475⟩, ⟨1145032032652269, 725738739820514, 1855868984131552, 720963278493880, 110768792888484⟩⟩)

/-- Inversion-chain value. -/
def gpu_i1 : Gfe := ⟨453675634119189, 1308094932946514, 619909282750414, 675159275789719, 96256150817095⟩

/-- Inversion-chain value. -/
def gpu_i2 : Gfe := ⟨644134344385828, 438016755884761, 1761934102160499, 2097275906686428, 1395997357795896⟩

/-- Inversion-chain value. -/
def gpu_i3 : Gfe := ⟨2138075591870858, 702880218636650, 1595971626157096, 90142949533163, 2160841132985191⟩

/-- Inversion-chain value. -/
def gpu_i4 : Gfe := ⟨1645231884336160, 209191240414717, 605439043474349, 1848318628693094, 1212494020728168⟩

/-- Inversion-chain value. -/
def gpu_i5 : Gfe := ⟨2218162696192732, 321310097192705, 1366564600095770, 1262203080522379, 252280471299053⟩

/-- Inversion-chain value. -/
def gpu_i6 : Gfe := ⟨1714728102410558, 745809395859092, 578179541423214, 1346910458441777, 457798055929677⟩

/-- Inversion-chain value. -/
def gpu_i7 : Gfe := ⟨268163042373890, 1545470820633602, 634997093275587, 1149944773221352, 232546629787640⟩

/-- Inversion-chain value. -/
def gpu_i8 : Gfe := ⟨969044580469607, 589556415594112, 787770876859514, 1876863476510800, 630093370769494⟩

/-- Inversion-chain value. -/
def gpu_i9 : Gfe := ⟨856359551391751, 1270271768753406, 734789625676301, 2023689947887239, 1052723309972435⟩

/-- Inversion-chain value. -/
def gpu_i10 : Gfe := ⟨498936381210351, 1482223503886221, 212224330696442, 1702700074191481, 205922895761890⟩

/-- Inversion-chain value. -/
def gpu_i11 : Gfe := ⟨1819103761495869, 1105264744787783, 1920069157133111, 649195287230590, 864194506286689⟩

/-- Inversion-chain value. -/
def gpu_i12 : Gfe := ⟨1221272783374946, 369009096096161, 972596075758786, 2243936615917007, 2040204207599083⟩

/-- Inversion-chain value. -/
def gpu_i13 : Gfe := ⟨704683763438831, 153192633032134, 2136720135215426, 1287682308525072, 624334811135595⟩

/-- Inversion-chain value. -/
def gpu_i14 : Gfe := ⟨295545920276981, 1746315502532122, 9547233293832, 1577709274337836, 1519109083347128⟩

/-- Inversion-chain value. -/
def gpu_i15 : Gfe := ⟨911384127246805, 387086707455474, 1242408290834442, 829447702484456, 55737648393983⟩

/-- Inversion-chain value. -/
def gpu_i16 : Gfe := ⟨1102225241758105, 1173467831378321, 2242499896407043, 631717542302093, 293590964265290⟩

/-- Inversion-chain value. -/
def gpu_i17a : Gfe := ⟨329818599897902, 1026629056154725, 434846052603411, 1572012013779275, 1901704963366127⟩

/-- Inversion-chain value. -/
def gpu_i17 : Gfe := ⟨642408337909097, 1679276121939044, 243454035750681, 435072230634406, 2169618061447902⟩

/-- Inversion-chain value. -/
def gpu_i18 : Gfe := ⟨1745156764627397, 1344590373030314, 1762138522704446, 1517586815715833, 1473185541301600⟩

/-- Inversion-chain value. -/
def gpu_i19 : Gfe := ⟨1892436428930823, 445539597718456, 524418397292582, 1999389728166711, 1110368330940882⟩

/-- Inversion-chain value. -/
def gpu_i20 : Gfe := ⟨1954149738729459, 446917871069224, 1397965522002333, 1760054351897984, 1035695247534533⟩

/-- Inversion-chain value. -/
def gpu_i21 : Gfe := ⟨1454960651771483, 1099658263954997, 1807735469883874, 608692255833117, 1908672035596027⟩

/-- `fe_inv` of the final Z. -/
def gpu_rinv : Gfe := ⟨1240979020092367, 1984000209403063, 626206576553225, 1808786815279589, 1459066785789588⟩

/-- Shader public key for the zero seed. -/
def gpu_pub0 : List Nat := [120, 49, 50, 244, 92, 238, 164, 60, 162, 28, 205, 192, 53, 148, 59, 60, 149, 181, 101, 246, 143, 78, 60, 85, 114, 41, 253, 57, 128, 153, 152, 232]

/-- CPU-path public key for the zero seed. -/
def cpu_pub0 : List Nat := [59, 106, 39, 188, 206, 182, 164, 45, 98, 163, 168, 208, 42, 111, 13, 115, 101, 50, 21, 119, 29, 226, 67, 166, 58, 192, 72, 161, 139, 89, 218, 41]

/-! ## Spec-side definitions

Definitions transcribed from the wording of `spec.md`, for the refinement
claims that compare the specification's description with the code. -/

/-- Clamping as the specification words it: clear the low 3 bits of byte 0,
and force the top two bits of byte 31 to `01`. -/
def spec_clamp (l : List Nat) : List Nat :=
  let l1 := l.set 0 (l.getD 0 0 - l.getD 0 0 % 8)
  l1.set 31 (l1.getD 31 0 % 64 + 64)

/-- The spec's `Mirror(n)` match on a 32-byte key: with `k = ceil(n/2)`, the
first `k` bytes equal the last `k` bytes, or the nibble sequence of the last
`k` bytes equals the reverse of the nibble sequence of the first `k` bytes. -/
def spec_mirror (pb : List Nat) (n : Nat) : Bool :=
  let k := (n + 1) / 2
  pb.take k == pb.drop (32 - k) ||
    byteNibbles (pb.drop (32 - k)) == (byteNibbles (pb.take k)).reverse

/-- Whether a byte is an ASCII hexadecimal digit (`0-9`, `A-F`, `a-f`). -/
def isHexDigitByte (c : Nat) : Bool :=
  (48 ≤ c && c ≤ 57) || (65 ≤ c && c ≤ 70) || (97 ≤ c && c ≤ 102)

/-- Uppercase hex digit (ASCII code) of a nibble value. -/
def hexDigitU (v : Nat) : Nat := if v < 10 then 48 + v else 55 + v

/-- A compressed-point encoding that fails to decompress: `y = 2` makes
`(y²-1)/(dy²+1)` a non-square. -/
def bad_pub : List Nat := 2 :: List.replicate 31 0

/-- A degenerate candidate: zero private key and a non-decompressible public
key, so both directed ECDH shared secrets are all zeros. -/
def degenerate_key : KeyInfo :=
  ⟨hexEncode bad_pub, hexEncode (List.replicate 64 0), bad_pub, List.replicate 64 0⟩

/-- A 32-byte key whose first and last byte are `0x12` and whose other bytes
are zero: its raw bytes match `Mirror(1)` while its hex string does not. -/
def mirror_key_example : List Nat := 18 :: (List.replicate 30 0 ++ [18])

/-! ## General helper lemmas -/

theorem natToBytesLE_length (len x : Nat) : (natToBytesLE len x).length = len := by
  simp [natToBytesLE]

theorem natToBytesBE_length (len x : Nat) : (natToBytesBE len x).length = len := by
  simp [natToBytesBE]

theorem natToBytesLE_lt (len x : Nat) : ∀ b ∈ natToBytesLE len x, b < 256 := by
  intro b hb
  simp only [natToBytesLE, List.mem_map] at hb
  obtain ⟨i, _, rfl⟩ := hb
  exact Nat.mod_lt _ (by norm_num)

theorem natToBytesBE_lt (len x : Nat) : ∀ b ∈ natToBytesBE len x, b < 256 := by
  intro b hb
  simp only [natToBytesBE, List.mem_map] at hb
  obtain ⟨i, _, rfl⟩ := hb
  exact Nat.mod_lt _ (by norm_num)

theorem sha512_length (msg : List Nat) : (sha512 msg).length = 64 := by
  simp [sha512, sha512StateBytes, natToBytesBE_length]

theorem sha512_lt (msg : List Nat) : ∀ b ∈ sha512 msg, b < 256 := by
  intro b hb
  simp only [sha512, sha512StateBytes, List.mem_append] at hb
  rcases hb with ((((((h | h) | h) | h) | h) | h) | h) | h <;>
    exact natToBytesBE_lt _ _ _ h

theorem range_add_split (m n : Nat) :
    List.range (m + n) = List.range m ++ List.range' m n := by
  induction n with
  | zero => simp
  | succ n ih =>
    rw [← Nat.add_assoc, List.range_succ, ih, List.range'_concat, List.append_assoc]
    simp

theorem range'_add_split (s m n : Nat) :
    List.range' s (m + n) = List.range' s m ++ List.range' (s + m) n := by
  rw [Nat.add_comm m n, ← List.range'_append s m n 1]
  simp

theorem fe_sq_n_succ (a : Gfe) (n : Nat) : fe_sq_n a (n + 1) = fe_sq (fe_sq_n a n) := by
  simp [fe_sq_n, List.range_succ]

theorem fe_sq_n_add (a : Gfe) (m n : Nat) :
    fe_sq_n a (m + n) = fe_sq_n (fe_sq_n a m) n := by
  induction n with
  | zero => simp [fe_sq_n]
  | succ n ih => rw [← Nat.add_assoc, fe_sq_n_succ, ih, fe_sq_n_succ]

/-! ### Evaluation of the zero-seed GPU derivation -/

set_option maxRecDepth 12000 in
theorem gpu_sha_zero : sha512_32bytes gpu_seed0 = gpu_hash0 := by decide

set_option maxRecDepth 12000 in
theorem gpu_clamp_zero : clamp_scalar (gpu_hash0.take 32) = gpu_scalar0 := by decide

set_option maxRecDepth 12000 in
theorem gpu_chunk_0 :
    (List.range' 0 6).foldl (ge_scalarmult_step gpu_scalar0) (ge_zero, ge_base) = gpu_cp_1 := by
  decide

set_option maxRecDepth 12000 in
theorem gpu_chunk_1 :
    (List.range' 6 6).foldl (ge_scalarmult_step gpu_scalar0) gpu_cp_1 = gpu_cp_2 := by
  decide

set_option maxRecDepth 12000 in
theorem gpu_chunk_2 :
    (List.range' 12 6).foldl (ge_scalarmult_step gpu_scalar0) gpu_cp_2 = gpu_cp_3 := by
  decide

set_option maxRecDepth 12000 in
theorem gpu_chunk_3 :
    (List.range' 18 6).foldl (ge_scalarmult_step gpu_scalar0) gpu_cp_3 = gpu_cp_4 := by
  decide

set_option maxRecDepth 12000 in
theorem gpu_chunk_4 :
    (List.range' 24 6).foldl (ge_scalarmult_step gpu_scalar0) gpu_cp_4 = gpu_cp_5 := by
  decide

set_option maxRecDepth 12000 in
theorem gpu_chunk_5 :
    (List.range' 30 6).foldl (ge_scalarmult_step gpu_scalar0) gpu_cp_5 = gpu_cp_6 := by
  decide

set_option maxRecDepth 12000 in
theorem gpu_chunk_6 :
    (List.range' 36 6).foldl (ge_scalarmult_step gpu_scalar0) gpu_cp_6 = gpu_cp_7 := by
  decide

set_option maxRecDepth 12000 in
theorem gpu_chunk_7 :
    (List.range' 42 6).foldl (ge_scalarmult_step gpu_scalar0) gpu_cp_7 = gpu_cp_8 := by
  decide

set_option maxRecDepth 12000 in
theorem gpu_chunk_8 :
    (List.range' 48 6).foldl (ge_scalarmult_step gpu_scalar0) gpu_cp_8 = gpu_cp_9 := by
  decide

set_option maxRecDepth 12000 in
theorem gpu_chunk_9 :
    (List.range' 54 6).foldl (ge_scalarmult_step gpu_scalar0) gpu_cp_9 = gpu_cp_10 := by
  decide

set_option maxRecDepth 12000 in
theorem gpu_chunk_10 :
    (List.range' 60 6).foldl (ge_scalarmult_step gpu_scalar0) gpu_cp_10 = gpu_cp_11 := by
  decide

set_option maxRecDepth 12000 in
theorem gpu_chunk_11 :
    (List.range' 66 6).foldl (ge_scalarmult_step gpu_scalar0) gpu_cp_11 = gpu_cp_12 := by
  decide

set_option maxRecDepth 12000 in
theorem gpu_chunk_12 :
    (List.range' 72 6).foldl (ge_scalarmult_step gpu_scalar0) gpu_cp_12 = gpu_cp_13 := by
  decide

set_option maxRecDepth 12000 in
theorem gpu_chunk_13 :
    (List.range' 78 6).foldl (ge_scalarmult_step gpu_scalar0) gpu_cp_13 = gpu_cp_14 := by
  decide

set_option maxRecDepth 12000 in
theorem gpu_chunk_14 :
    (List.range' 84 6).foldl (ge_scalarmult_step gpu_scalar0) gpu_cp_14 = gpu_cp_15 := by
  decide

set_option maxRecDepth 12000 in
theorem gpu_chunk_15 :
    (List.range' 90 6).foldl (ge_scalarmult_step gpu_scalar0) gpu_cp_15 = gpu_cp_16 := by
  decide

set_option maxRecDepth 12000 in
theorem gpu_chunk_16 :
    (List.range' 96 6).foldl (ge_scalarmult_step gpu_scalar0) gpu_cp_16 = gpu_cp_17 := by
  decide

set_option maxRecDepth 12000 in
theorem gpu_chunk_17 :
    (List.range' 102 6).foldl (ge_scalarmult_step gpu_scalar0) gpu_cp_17 = gpu_cp_18 := by
  decide

set_option maxRecDepth 12000 in
theorem gpu_chunk_18 :
    (List.range' 108 6).foldl (ge_scalarmult_step gpu_scalar0) gpu_cp_18 = gpu_cp_19 := by
  decide

set_option maxRecDepth 12000 in
theorem gpu_chunk_19 :
    (List.range' 114 6).foldl (ge_scalarmult_step gpu_scalar0) gpu_cp_19 = gpu_cp_20 := by
  decide

set_option maxRecDepth 12000 in
theorem gpu_chunk_20 :
    (List.range' 120 6).foldl (ge_scalarmult_step gpu_scalar0) gpu_cp_20 = gpu_cp_21 := by
  decide

set_option maxRecDepth 12000 in
theorem gpu_chunk_21 :
    (List.range' 126 6).foldl (ge_scalarmult_step gpu_scalar0) gpu_cp_21 = gpu_cp_22 := by
  decide

set_option maxRecDepth 12000 in
theorem gpu_chunk_22 :
    (List.range' 132 6).foldl (ge_scalarmult_step gpu_scalar0) gpu_cp_22 = gpu_cp_23 := by
  decide

set_option maxRecDepth 12000 in
theorem gpu_chunk_23 :
    (List.range' 138 6).foldl (ge_scalarmult_step gpu_scalar0) gpu_cp_23 = gpu_cp_24 := by
  decide

set_option maxRecDepth 12000 in
theorem gpu_chunk_24 :
    (List.range' 144 6).foldl (ge_scalarmult_step gpu_scalar0) gpu_cp_24 = gpu_cp_25 := by
  decide

set_option maxRecDepth 12000 in
theorem gpu_chunk_25 :
    (List.range' 150 6).foldl (ge_scalarmult_step gpu_scalar0) gpu_cp_25 = gpu_cp_26 := by
  decide

set_option maxRecDepth 12000 in
theorem gpu_chunk_26 :
    (List.range' 156 6).foldl (ge_scalarmult_step gpu_scalar0) gpu_cp_26 = gpu_cp_27 := by
  decide

set_option maxRecDepth 12000 in
theorem gpu_chunk_27 :
    (List.range' 162 6).foldl (ge_scalarmult_step gpu_scalar0) gpu_cp_27 = gpu_cp_28 := by
  decide

set_option maxRecDepth 12000 in
theorem gpu_chunk_28 :
    (List.range' 168 6).foldl (ge_scalarmult_step gpu_scalar0) gpu_cp_28 = gpu_cp_29 := by
  decide

set_option maxRecDepth 12000 in
theorem gpu_chunk_29 :
    (List.range' 174 6).foldl (ge_scalarmult_step gpu_scalar0) gpu_cp_29 = gpu_cp_30 := by
  decide

set_option maxRecDepth 12000 in
theorem gpu_chunk_30 :
    (List.range' 180 6).foldl (ge_scalarmult_step gpu_scalar0) gpu_cp_30 = gpu_cp_31 := by
  decide

set_option maxRecDepth 12000 in
theorem gpu_chunk_31 :
    (List.range' 186 6).foldl (ge_scalarmult_step gpu_scalar0) gpu_cp_31 = gpu_cp_32 := by
  decide

set_option maxRecDepth 12000 in
theorem gpu_chunk_32 :
    (List.range' 192 6).foldl (ge_scalarmult_step gpu_scalar0) gpu_cp_32 = gpu_cp_33 := by
  decide

set_option maxRecDepth 12000 in
theorem gpu_chunk_33 :
    (List.range' 198 6).foldl (ge_scalarmult_step gpu_scalar0) gpu_cp_33 = gpu_cp_34 := by
  decide

set_option maxRecDepth 12000 in
theorem gpu_chunk_34 :
    (List.range' 204 6).foldl (ge_scalarmult_step gpu_scalar0) gpu_cp_34 = gpu_cp_35 := by
  decide

set_option maxRecDepth 12000 in
theorem gpu_chunk_35 :
    (List.range' 210 6).foldl (ge_scalarmult_step gpu_scalar0) gpu_cp_35 = gpu_cp_36 := by
  decide

set_option maxRecDepth 12000 in
theorem gpu_chunk_36 :
    (List.range' 216 6).foldl (ge_scalarmult_step gpu_scalar0) gpu_cp_36 = gpu_cp_37 := by
  decide

set_option maxRecDepth 12000 in
theorem gpu_chunk_37 :
    (List.range' 222 6).foldl (ge_scalarmult_step gpu_scalar0) gpu_cp_37 = gpu_cp_38 := by
  decide

set_option maxRecDepth 12000 in
theorem gpu_chunk_38 :
    (List.range' 228 6).foldl (ge_scalarmult_step gpu_scalar0) gpu_cp_38 = gpu_cp_39 := by
  decide

set_option maxRecDepth 12000 in
theorem gpu_chunk_39 :
    (List.range' 234 6).foldl (ge_scalarmult_step gpu_scalar0) gpu_cp_39 = gpu_cp_40 := by
  decide

set_option maxRecDepth 12000 in
theorem gpu_chunk_40 :
    (List.range' 240 6).foldl (ge_scalarmult_step gpu_scalar0) gpu_cp_40 = gpu_cp_41 := by
  decide

set_option maxRecDepth 12000 in
theorem gpu_chunk_41 :
    (List.range' 246 6).foldl (ge_scalarmult_step gpu_scalar0) gpu_cp_41 = gpu_cp_42 := by
  decide

set_option maxRecDepth 12000 in
theorem gpu_chunk_42 :
    (List.range' 252 4).foldl (ge_scalarmult_step gpu_scalar0) gpu_cp_42 = gpu_cp_43 := by
  decide

theorem gpu_foldl_zero :
    (List.range 256).foldl (ge_scalarmult_step gpu_scalar0) (ge_zero, ge_base) =
    gpu_cp_43 := by
  rw [List.range_eq_range']
  have h0 : List.range' 0 256 = List.range' 0 6 ++ List.range' 6 250 := by
    rw [← range'_add_split]
  rw [h0, List.foldl_append, gpu_chunk_0]
  have h1 : List.range' 6 250 = List.range' 6 6 ++ List.range' 12 244 := by
    rw [← range'_add_split]
  rw [h1, List.foldl_append, gpu_chunk_1]
  have h2 : List.range' 12 244 = List.range' 12 6 ++ List.range' 18 238 := by
    rw [← range'_add_split]
  rw [h2, List.foldl_append, gpu_chunk_2]
  have h3 : List.range' 18 238 = List.range' 18 6 ++ List.range' 24 232 := by
    rw [← range'_add_split]
  rw [h3, List.foldl_append, gpu_chunk_3]
  have h4 : List.range' 24 232 = List.range' 24 6 ++ List.range' 30 226 := by
    rw [← range'_add_split]
  rw [h4, List.foldl_append, gpu_chunk_4]
  have h5 : List.range' 30 226 = List.range' 30 6 ++ List.range' 36 220 := by
    rw [← range'_add_split]
  rw [h5, List.foldl_append, gpu_chunk_5]
  have h6 : List.range' 36 220 = List.range' 36 6 ++ List.range' 42 214 := by
    rw [← range'_add_split]
  rw [h6, List.foldl_append, gpu_chunk_6]
  have h7 : List.range' 42 214 = List.range' 42 6 ++ List.range' 48 208 := by
    rw [← range'_add_split]
  rw [h7, List.foldl_append, gpu_chunk_7]
  have h8 : List.range' 48 208 = List.range' 48 6 ++ List.range' 54 202 := by
    rw [← range'_add_split]
  rw [h8, List.foldl_append, gpu_chunk_8]
  have h9 : List.range' 54 202 = List.range' 54 6 ++ List.range' 60 196 := by
    rw [← range'_add_split]
  rw [h9, List.foldl_append, gpu_chunk_9]
  have h10 : List.range' 60 196 = List.range' 60 6 ++ List.range' 66 190 := by
    rw [← range'_add_split]
  rw [h10, List.foldl_append, gpu_chunk_10]
  have h11 : List.range' 66 190 = List.range' 66 6 ++ List.range' 72 184 := by
    rw [← range'_add_split]
  rw [h11, List.foldl_append, gpu_chunk_11]
  have h12 : List.range' 72 184 = List.range' 72 6 ++ List.range' 78 178 := by
    rw [← range'_add_split]
  rw [h12, List.foldl_append, gpu_chunk_12]
  have h13 : List.range' 78 178 = List.range' 78 6 ++ List.range' 84 172 := by
    rw [← range'_add_split]
  rw [h13, List.foldl_append, gpu_chunk_13]
  have h14 : List.range' 84 172 = List.range' 84 6 ++ List.range' 90 166 := by
    rw [← range'_add_split]
  rw [h14, List.foldl_append, gpu_chunk_14]
  have h15 : List.range' 90 166 = List.range' 90 6 ++ List.range' 96 160 := by
    rw [← range'_add_split]
  rw [h15, List.foldl_append, gpu_chunk_15]
  have h16 : List.range' 96 160 = List.range' 96 6 ++ List.range' 102 154 := by
    rw [← range'_add_split]
  rw [h16, List.foldl_append, gpu_chunk_16]
  have h17 : List.range' 102 154 = List.range' 102 6 ++ List.range' 108 148 := by
    rw [← range'_add_split]
  rw [h17, List.foldl_append, gpu_chunk_17]
  have h18 : List.range' 108 148 = List.range' 108 6 ++ List.range' 114 142 := by
    rw [← range'_add_split]
  rw [h18, List.foldl_append, gpu_chunk_18]
  have h19 : List.range' 114 142 = List.range' 114 6 ++ List.range' 120 136 := by
    rw [← range'_add_split]
  rw [h19, List.foldl_append, gpu_chunk_19]
  have h20 : List.range' 120 136 = List.range' 120 6 ++ List.range' 126 130 := by
    rw [← range'_add_split]
  rw [h20, List.foldl_append, gpu_chunk_20]
  have h21 : List.range' 126 130 = List.range' 126 6 ++ List.range' 132 124 := by
    rw [← range'_add_split]
  rw [h21, List.foldl_append, gpu_chunk_21]
  have h22 : List.range' 132 124 = List.range' 132 6 ++ List.range' 138 118 := by
    rw [← range'_add_split]
  rw [h22, List.foldl_append, gpu_chunk_22]
  have h23 : List.range' 138 118 = List.range' 138 6 ++ List.range' 144 112 := by
    rw [← range'_add_split]
  rw [h23, List.foldl_append, gpu_chunk_23]
  have h24 : List.range' 144 112 = List.range' 144 6 ++ List.range' 150 106 := by
    rw [← range'_add_split]
  rw [h24, List.foldl_append, gpu_chunk_24]
  have h25 : List.range' 150 106 = List.range' 150 6 ++ List.range' 156 100 := by
    rw [← range'_add_split]
  rw [h25, List.foldl_append, gpu_chunk_25]
  have h26 : List.range' 156 100 = List.range' 156 6 ++ List.range' 162 94 := by
    rw [← range'_add_split]
  rw [h26, List.foldl_append, gpu_chunk_26]
  have h27 : List.range' 162 94 = List.range' 162 6 ++ List.range' 168 88 := by
    rw [← range'_add_split]
  rw [h27, List.foldl_append, gpu_chunk_27]
  have h28 : List.range' 168 88 = List.range' 168 6 ++ List.range' 174 82 := by
    rw [← range'_add_split]
  rw [h28, List.foldl_append, gpu_chunk_28]
  have h29 : List.range' 174 82 = List.range' 174 6 ++ List.range' 180 76 := by
    rw [← range'_add_split]
  rw [h29, List.foldl_append, gpu_chunk_29]
  have h30 : List.range' 180 76 = List.range' 180 6 ++ List.range' 186 70 := by
    rw [← range'_add_split]
  rw [h30, List.foldl_append, gpu_chunk_30]
  have h31 : List.range' 186 70 = List.range' 186 6 ++ List.range' 192 64 := by
    rw [← range'_add_split]
  rw [h31, List.foldl_append, gpu_chunk_31]
  have h32 : List.range' 192 64 = List.range' 192 6 ++ List.range' 198 58 := by
    rw [← range'_add_split]
  rw [h32, List.foldl_append, gpu_chunk_32]
  have h33 : List.range' 198 58 = List.range' 198 6 ++ List.range' 204 52 := by
    rw [← range'_add_split]
  rw [h33, List.foldl_append, gpu_chunk_33]
  have h34 : List.range' 204 52 = List.range' 204 6 ++ List.range' 210 46 := by
    rw [← range'_add_split]
  rw [h34, List.foldl_append, gpu_chunk_34]
  have h35 : List.range' 210 46 = List.range' 210 6 ++ List.range' 216 40 := by
    rw [← range'_add_split]
  rw [h35, List.foldl_append, gpu_chunk_35]
  have h36 : List.range' 216 40 = List.range' 216 6 ++ List.range' 222 34 := by
    rw [← range'_add_split]
  rw [h36, List.foldl_append, gpu_chunk_36]
  have h37 : List.range' 222 34 = List.range' 222 6 ++ List.range' 228 28 := by
    rw [← range'_add_split]
  rw [h37, List.foldl_append, gpu_chunk_37]
  have h38 : List.range' 228 28 = List.range' 228 6 ++ List.range' 234 22 := by
    rw [← range'_add_split]
  rw [h38, List.foldl_append, gpu_chunk_38]
  have h39 : List.range' 234 22 = List.range' 234 6 ++ List.range' 240 16 := by
    rw [← range'_add_split]
  rw [h39, List.foldl_append, gpu_chunk_39]
  have h40 : List.range' 240 16 = List.range' 240 6 ++ List.range' 246 10 := by
    rw [← range'_add_split]
  rw [h40, List.foldl_append, gpu_chunk_40]
  have h41 : List.range' 246 10 = List.range' 246 6 ++ List.range' 252 4 := by
    rw [← range'_add_split]
  rw [h41, List.foldl_append, gpu_chunk_41]
  exact gpu_chunk_42

theorem gpu_smult_zero : ge_scalarmult ge_base gpu_scalar0 = gpu_pt0 := by
  unfold ge_scalarmult
  rw [gpu_foldl_zero]
  rfl

set_option maxRecDepth 12000 in
theorem gpu_inv_step_1 : fe_sq gpu_zfin = gpu_i1 := by decide

set_option maxRecDepth 12000 in
theorem gpu_inv_step_2 : fe_sq_n gpu_i1 2 = gpu_i2 := by decide

set_option maxRecDepth 12000 in
theorem gpu_inv_step_3 : fe_mul gpu_i2 gpu_zfin = gpu_i3 := by decide

set_option maxRecDepth 12000 in
theorem gpu_inv_step_4 : fe_mul gpu_i1 gpu_i3 = gpu_i4 := by decide

set_option maxRecDepth 12000 in
theorem gpu_inv_step_5 : fe_sq gpu_i4 = gpu_i5 := by decide

set_option maxRecDepth 12000 in
theorem gpu_inv_step_6 : fe_mul gpu_i3 gpu_i5 = gpu_i6 := by decide

set_option maxRecDepth 12000 in
theorem gpu_inv_step_7 : fe_sq_n gpu_i6 5 = gpu_i7 := by decide

set_option maxRecDepth 12000 in
theorem gpu_inv_step_8 : fe_mul gpu_i6 gpu_i7 = gpu_i8 := by decide

set_option maxRecDepth 12000 in
theorem gpu_inv_step_9 : fe_sq_n gpu_i8 10 = gpu_i9 := by decide

set_option maxRecDepth 12000 in
theorem gpu_inv_step_10 : fe_mul gpu_i9 gpu_i8 = gpu_i10 := by decide

set_option maxRecDepth 12000 in
theorem gpu_inv_step_11 : fe_sq_n gpu_i10 20 = gpu_i11 := by decide

set_option maxRecDepth 12000 in
theorem gpu_inv_step_12 : fe_mul gpu_i11 gpu_i10 = gpu_i12 := by decide

set_option maxRecDepth 12000 in
theorem gpu_inv_step_13 : fe_sq_n gpu_i12 10 = gpu_i13 := by decide

set_option maxRecDepth 12000 in
theorem gpu_inv_step_14 : fe_mul gpu_i13 gpu_i8 = gpu_i14 := by decide

set_option maxRecDepth 12000 in
theorem gpu_inv_step_15 : fe_sq_n gpu_i14 50 = gpu_i15 := by decide

set_option maxRecDepth 12000 in
theorem gpu_inv_step_16 : fe_mul gpu_i15 gpu_i14 = gpu_i16 := by decide

set_option maxRecDepth 12000 in
theorem gpu_inv_step_17a : fe_sq_n gpu_i16 50 = gpu_i17a := by decide

set_option maxRecDepth 12000 in
theorem gpu_inv_step_17 : fe_sq_n gpu_i17a 50 = gpu_i17 := by decide

set_option maxRecDepth 12000 in
theorem gpu_inv_step_18 : fe_mul gpu_i17 gpu_i16 = gpu_i18 := by decide

set_option maxRecDepth 12000 in
theorem gpu_inv_step_19 : fe_sq_n gpu_i18 50 = gpu_i19 := by decide

set_option maxRecDepth 12000 in
theorem gpu_inv_step_20 : fe_mul gpu_i19 gpu_i14 = gpu_i20 := by decide

set_option maxRecDepth 12000 in
theorem gpu_inv_step_21 : fe_sq_n gpu_i20 5 = gpu_i21 := by decide

theorem gpu_inv_step_17full : fe_sq_n gpu_i16 100 = gpu_i17 := by
  rw [show (100 : Nat) = 50 + 50 from rfl, fe_sq_n_add, gpu_inv_step_17a, gpu_inv_step_17]

set_option maxRecDepth 12000 in
theorem gpu_inv_step_final : fe_mul gpu_i21 gpu_i4 = gpu_rinv := by decide

theorem gpu_inv_zfin : fe_inv gpu_zfin = gpu_rinv := by
  simp only [fe_inv]
  rw [gpu_inv_step_1, gpu_inv_step_2, gpu_inv_step_3, gpu_inv_step_4, gpu_inv_step_5, gpu_inv_step_6, gpu_inv_step_7, gpu_inv_step_8, gpu_inv_step_9, gpu_inv_step_10, gpu_inv_step_11, gpu_inv_step_12, gpu_inv_step_13, gpu_inv_step_14, gpu_inv_step_15, gpu_inv_step_16, gpu_inv_step_17full, gpu_inv_step_18, gpu_inv_step_19, gpu_inv_step_20, gpu_inv_step_21, gpu_inv_step_final]

set_option maxRecDepth 12000 in
theorem gpu_pub_zero : (gpu_derive gpu_seed0).1 = gpu_pub0 := by
  show ge_to_bytes (ge_scalarmult ge_base
    (clamp_scalar ((sha512_32bytes gpu_seed0).take 32))) = gpu_pub0
  rw [gpu_sha_zero, gpu_clamp_zero, gpu_smult_zero]
  simp only [ge_to_bytes]
  rw [show gpu_pt0.Z = gpu_zfin from rfl, gpu_inv_zfin]
  decide

set_option maxRecDepth 12000 in
theorem cpu_pub_zero : (generate_from_seed gpu_seed0).public_bytes = cpu_pub0 := by
  decide


/-! ### Facts about single clamped bytes -/

set_option maxRecDepth 4000 in
theorem and248_and7 (b : Nat) (h : b < 256) : b &&& 248 &&& 7 = 0 := by
  revert b
  decide

set_option maxRecDepth 4000 in
theorem and63_or64_and192 (b : Nat) (h : b < 256) : ((b &&& 63) ||| 64) &&& 192 = 64 := by
  revert b
  decide

set_option maxRecDepth 4000 in
theorem and248_eq_sub_mod (b : Nat) (h : b < 256) : b &&& 248 = b - b % 8 := by
  revert b
  decide

set_option maxRecDepth 4000 in
theorem and63_or64_eq_mod_add (b : Nat) (h : b < 256) : (b &&& 63) ||| 64 = b % 64 + 64 := by
  revert b
  decide

/-! ### Plumbing for `clamp_scalar` and `generate_from_seed` -/

theorem clamp_scalar_length (l : List Nat) : (clamp_scalar l).length = l.length := by
  simp [clamp_scalar]

theorem clamped_digest_length (seed : List Nat) :
    (clamp_scalar ((sha512 seed).take 32)).length = 32 := by
  simp [clamp_scalar_length, sha512_length]

theorem clamp_scalar_getD_0 (l : List Nat) (h : l.length = 32) :
    (clamp_scalar l).getD 0 0 = l.getD 0 0 &&& 248 := by
  unfold clamp_scalar
  rw [List.getD_eq_getElem?_getD, List.getElem?_set_ne (by omega),
    List.getElem?_set_self (by omega), Option.getD_some]

theorem clamp_scalar_getD_31 (l : List Nat) (h : l.length = 32) :
    (clamp_scalar l).getD 31 0 = (l.getD 31 0 &&& 63) ||| 64 := by
  unfold clamp_scalar
  rw [List.getD_eq_getElem?_getD, List.getElem?_set_self (by simp; omega), Option.getD_some,
    List.getD_eq_getElem?_getD, List.getElem?_set_ne (by omega), ← List.getD_eq_getElem?_getD]

theorem digest_byte_lt (seed : List Nat) (i : Nat) :
    ((sha512 seed).take 32).getD i 0 < 256 := by
  rcases h : ((sha512 seed).take 32)[i]? with _ | b
  · simp [List.getD_eq_getElem?_getD, h]
  · have hb : b ∈ (sha512 seed).take 32 := List.getElem?_mem h
    have := sha512_lt seed b (List.mem_of_mem_take hb)
    simp [List.getD_eq_getElem?_getD, h, this]

theorem generate_private_eq (seed : List Nat) :
    (generate_from_seed seed).private_bytes =
      clamp_scalar ((sha512 seed).take 32) ++ (sha512 seed).drop 32 := rfl

/-! ### C6 -/

/-- C6: every derived private key has its low three bits of byte 0 cleared and
the top two bits of byte 31 equal to `01`. -/
theorem clamping_invariant (seed : List Nat) (h1 : seed.length = 32)
    (h2 : ∀ b ∈ seed, b < 256) :
    (generate_from_seed seed).private_bytes.getD 0 0 &&& 7 = 0 ∧
    (generate_from_seed seed).private_bytes.getD 31 0 &&& 192 = 64 := by
  have hlen := clamped_digest_length seed
  have hdig : ((sha512 seed).take 32).length = 32 := by simp [sha512_length]
  rw [generate_private_eq]
  rw [List.getD_append _ _ _ _ (by omega), List.getD_append _ _ _ _ (by omega)]
  rw [clamp_scalar_getD_0 _ hdig, clamp_scalar_getD_31 _ hdig]
  exact ⟨and248_and7 _ (digest_byte_lt seed 0), and63_or64_and192 _ (digest_byte_lt seed 31)⟩

/-- C6 witness. -/
theorem clamping_invariant_witness :
    (generate_from_seed (List.replicate 32 0)).private_bytes.getD 0 0 &&& 7 = 0 ∧
    (generate_from_seed (List.replicate 32 0)).private_bytes.getD 31 0 &&& 192 = 64 :=
  clamping_invariant (List.replicate 32 0) (by simp) (by simp)

theorem take_append_eq {α : Type} (a b : List α) (n : Nat) (h : a.length = n) :
    (a ++ b).take n = a := by
  subst h
  exact List.take_left a b

/-! ### C7 -/

/-- C7: `verify_key` holds on every generated key pair: re-deriving the public
key from the first 32 stored private-key bytes reproduces the stored public
key. -/
theorem verify_generated_key (seed : List Nat) (h1 : seed.length = 32)
    (h2 : ∀ b ∈ seed, b < 256) :
    verify_key (generate_from_seed seed) = true := by
  unfold verify_key
  show ((compressEdwards (edScalarMul (bytesToNatLE
    ((clamp_scalar ((sha512 seed).take 32) ++ (sha512 seed).drop 32).take 32) % ORDER_L)
    edBasepoint)) == (generate_from_seed seed).public_bytes) = true
  rw [take_append_eq _ _ _ (clamped_digest_length seed)]
  exact beq_self_eq_true _

/-- C7 witness. -/
theorem verify_generated_key_witness :
    verify_key (generate_from_seed (List.replicate 32 0)) = true :=
  verify_generated_key (List.replicate 32 0) (by simp) (by simp)

/-! ### C1 -/

theorem clamp_eq_spec_clamp (l : List Nat) (h : l.length = 32)
    (hb : ∀ i, l.getD i 0 < 256) : clamp_scalar l = spec_clamp l := by
  show (l.set 0 (l.getD 0 0 &&& 248)).set 31
      (((l.set 0 (l.getD 0 0 &&& 248)).getD 31 0 &&& 63) ||| 64) =
    (l.set 0 (l.getD 0 0 - l.getD 0 0 % 8)).set 31
      ((l.set 0 (l.getD 0 0 - l.getD 0 0 % 8)).getD 31 0 % 64 + 64)
  rw [and248_eq_sub_mod _ (hb 0)]
  have hb31 : (l.set 0 (l.getD 0 0 - l.getD 0 0 % 8)).getD 31 0 = l.getD 31 0 := by
    rw [List.getD_eq_getElem?_getD, List.getElem?_set_ne (by omega), ← List.getD_eq_getElem?_getD]
  rw [hb31, and63_or64_eq_mod_add _ (hb 31)]

theorem compressEdwards_length (p : EdPoint) : (compressEdwards p).length = 32 := by
  simp [compressEdwards, natToBytesLE_length]

/-- C1: `generate_from_seed` returns the key pair described by the spec: the
private key is the clamped first digest half followed by the second digest
half, and the public key is the compressed basepoint multiple of the clamped
scalar reduced mod the group order. -/
theorem generate_from_seed_spec (seed : List Nat) (h1 : seed.length = 32)
    (h2 : ∀ b ∈ seed, b < 256) :
    (generate_from_seed seed).private_bytes =
      spec_clamp ((sha512 seed).take 32) ++ (sha512 seed).drop 32 ∧
    (generate_from_seed seed).public_bytes =
      compressEdwards (edScalarMul
        (bytesToNatLE (spec_clamp ((sha512 seed).take 32)) % ORDER_L) edBasepoint) ∧
    (generate_from_seed seed).private_bytes.length = 64 ∧
    (generate_from_seed seed).public_bytes.length = 32 := by
  have hdig : ((sha512 seed).take 32).length = 32 := by simp [sha512_length]
  have hcl : clamp_scalar ((sha512 seed).take 32) = spec_clamp ((sha512 seed).take 32) :=
    clamp_eq_spec_clamp _ hdig (digest_byte_lt seed)
  refine ⟨?_, ?_, ?_, ?_⟩
  · rw [generate_private_eq, hcl]
  · show compressEdwards (edScalarMul
      (bytesToNatLE (clamp_scalar ((sha512 seed).take 32)) % ORDER_L) edBasepoint) = _
    rw [hcl]
  · rw [generate_private_eq]
    simp [clamped_digest_length, sha512_length]
  · exact compressEdwards_length _

/-- C1 witness. -/
theorem generate_from_seed_spec_witness :
    (generate_from_seed (List.replicate 32 0)).private_bytes =
      spec_clamp ((sha512 (List.replicate 32 0)).take 32) ++
        (sha512 (List.replicate 32 0)).drop 32 ∧
    (generate_from_seed (List.replicate 32 0)).public_bytes =
      compressEdwards (edScalarMul
        (bytesToNatLE (spec_clamp ((sha512 (List.replicate 32 0)).take 32)) % ORDER_L)
        edBasepoint) ∧
    (generate_from_seed (List.replicate 32 0)).private_bytes.length = 64 ∧
    (generate_from_seed (List.replicate 32 0)).public_bytes.length = 32 :=
  generate_from_seed_spec (List.replicate 32 0) (by simp) (by simp)

/-! ### C3 -/

/-- C3: the validator accepts exactly the keys whose first public-key byte is
neither `0x00` nor `0xFF`, whose bidirectional ECDH shared secrets against the
test keypair agree, and whose shared secret is not all zeros; and every
rejection carries a reason. -/
theorem validate_for_meshcore_iff (key : KeyInfo) :
    ((validate_for_meshcore key).valid = true ↔
      (key.public_bytes.getD 0 0 ≠ 0 ∧ key.public_bytes.getD 0 0 ≠ 255 ∧
        ecdh_key_exchange key.private_bytes test_client_pub =
          ecdh_key_exchange test_client_prv key.public_bytes ∧
        ((ecdh_key_exchange key.private_bytes test_client_pub).all fun b => b == 0) = false)) ∧
    ((validate_for_meshcore key).valid = false → (validate_for_meshcore key).reason ≠ none) := by
  simp only [validate_for_meshcore]
  split_ifs with hzero hff hne hall <;> simp_all
  assumption

/-! ### C10 -/

/-- C10: `from_slice` succeeds on every 32-byte input, so the `unwrap` in
`ecdh_key_exchange` cannot panic, and the exchange always returns 32 bytes. -/
theorem from_slice_total (priv pub : List Nat) (h : pub.length = 32) :
    (compressedEdwardsY_from_slice pub).isSome = true ∧
    (ecdh_key_exchange priv pub).length = 32 := by
  constructor
  · simp [compressedEdwardsY_from_slice, h]
  · unfold ecdh_key_exchange compressedEdwardsY_from_slice
    rw [if_pos h]
    show (match decompressEdwards pub with
      | some pt => natToBytesLE 32 (montgomeryU (edScalarMul
          (bytesToNatLE (priv.take 32) % ORDER_L) ⟨pt.1, pt.2, 1, fmul pt.1 pt.2⟩))
      | none => List.replicate 32 0).length = 32
    cases decompressEdwards pub
    · simp
    · simp [natToBytesLE_length]

/-- C10 witness. -/
theorem from_slice_total_witness :
    (compressedEdwardsY_from_slice (List.replicate 32 0)).isSome = true ∧
    (ecdh_key_exchange (List.replicate 64 0) (List.replicate 32 0)).length = 32 :=
  from_slice_total (List.replicate 64 0) (List.replicate 32 0) (by simp)

/-! ### C8 -/

/-- C8: a failed decompression makes `ecdh_key_exchange` return all zeros
rather than fail, and a key whose bidirectional shared secrets are all zeros
is marked invalid with a reason by the validator. -/
theorem ecdh_degenerate_handling (priv other : List Nat) (key : KeyInfo) :
    (other.length = 32 → decompressEdwards other = none →
      ecdh_key_exchange priv other = List.replicate 32 0) ∧
    (ecdh_key_exchange key.private_bytes test_client_pub = List.replicate 32 0 →
      ecdh_key_exchange test_client_prv key.public_bytes = List.replicate 32 0 →
      (validate_for_meshcore key).valid = false ∧
        (validate_for_meshcore key).reason ≠ none) := by
  constructor
  · intro hlen hdec
    unfold ecdh_key_exchange compressedEdwardsY_from_slice
    rw [if_pos hlen]
    show (match decompressEdwards other with
      | some pt => natToBytesLE 32 (montgomeryU (edScalarMul
          (bytesToNatLE (priv.take 32) % ORDER_L) ⟨pt.1, pt.2, 1, fmul pt.1 pt.2⟩))
      | none => List.replicate 32 0) = List.replicate 32 0
    rw [hdec]
  · intro hs1 hs2
    have hz : ((List.replicate 32 (0 : Nat)).all fun b => b == 0) = true := by decide
    simp only [validate_for_meshcore]
    split_ifs with hzero hff hne hall <;> simp_all

/-! ### Small `BEq` bridges -/

theorem bool_eq_of_iff {x y : Bool} (h : x = true ↔ y = true) : x = y := by
  cases x <;> cases y <;> simp_all

theorem singleton_beq (a b : Nat) : ([a] == [b]) = (a == b) := by
  by_cases h : a = b <;> simp [h]

theorem nibble_pal_singleton (x y : Nat) :
    check_nibble_palindrome [x] [y] =
      ((x >>> 4 == y &&& 15) && (x &&& 15 == y >>> 4)) := by
  apply bool_eq_of_iff
  unfold check_nibble_palindrome byteNibbles
  simp

theorem beq_reverse_comm (a b : List Nat) : (a == b.reverse) = (b == a.reverse) := by
  by_cases h : a = b.reverse
  · rw [h]
    simp
  · have h' : b ≠ a.reverse := fun hh => h (by rw [hh]; simp)
    rw [beq_eq_false_iff_ne.mpr h, beq_eq_false_iff_ne.mpr h']

/-! ### C4 -/

theorem take_one_of_length (l : List Nat) (h : l.length = 32) : l.take 1 = [l.getD 0 0] := by
  cases l with
  | nil => simp at h
  | cons a t => rfl

theorem drop_31_of_length (l : List Nat) (h : l.length = 32) : l.drop 31 = [l.getD 31 0] := by
  have hd : (l.drop 31).length = 1 := by simp [h]
  obtain ⟨a, ha⟩ := List.length_eq_one.mp hd
  have h31 : l[31]? = some a := by
    have := List.getElem?_drop l 31 0
    rw [ha] at this
    simpa using this.symm
  rw [ha, List.getD_eq_getElem?_getD, h31]
  rfl

theorem check_vanity_bytes_eq (pb : List Nat) (n : Nat) (h : pb.length = 32)
    (hk : (n + 1) / 2 ≤ 32) :
    check_vanity_pattern_bytes pb n =
      some (pb.take ((n + 1) / 2) == pb.drop (32 - (n + 1) / 2) ||
        check_nibble_palindrome (pb.take ((n + 1) / 2)) (pb.drop (32 - (n + 1) / 2))) := by
  unfold check_vanity_pattern_bytes
  split_ifs with h2 h4 h6 h8 hle
  · subst h2
    norm_num
    rw [take_one_of_length pb h, drop_31_of_length pb h, singleton_beq, nibble_pal_singleton]
    simp only [List.getD_eq_getElem?_getD]
  · subst h4
    norm_num
  · subst h6
    norm_num
  · subst h8
    norm_num
  · rfl

theorem generic_eq_spec_mirror (pb : List Nat) (n : Nat) (h : pb.length = 32)
    (hk : (n + 1) / 2 ≤ 32) :
    (pb.take ((n + 1) / 2) == pb.drop (32 - (n + 1) / 2) ||
      check_nibble_palindrome (pb.take ((n + 1) / 2)) (pb.drop (32 - (n + 1) / 2))) =
    spec_mirror pb n := by
  unfold spec_mirror check_nibble_palindrome
  have l1 : (pb.take ((n + 1) / 2)).length = (n + 1) / 2 := by
    simp [h]
    omega
  have l2 : (pb.drop (32 - (n + 1) / 2)).length = (n + 1) / 2 := by
    simp [h]
    omega
  rw [if_neg (by rw [l1, l2]; simp)]
  rw [beq_reverse_comm]

/-- C4: for nibble counts whose byte count fits the key, the raw-byte Mirror
matcher in Vanity and Pattern mode returns exactly the spec's Mirror match. -/
theorem mirror_matcher_eq (pb : List Nat) (n : Nat) (h1 : pb.length = 32)
    (hn : (n + 1) / 2 ≤ 32) :
    matches_pattern_bytes pb ⟨.Vanity, none, n⟩ = some (spec_mirror pb n) ∧
    matches_pattern_bytes pb ⟨.Pattern, none, n⟩ = some (spec_mirror pb n) := by
  have hcore : check_vanity_pattern_bytes pb n = some (spec_mirror pb n) := by
    rw [check_vanity_bytes_eq pb n h1 hn, generic_eq_spec_mirror pb n h1 hn]
  exact ⟨hcore, hcore⟩

/-- C4 witness. -/
theorem mirror_matcher_eq_witness :
    matches_pattern_bytes (List.replicate 32 0) ⟨.Vanity, none, 8⟩ =
      some (spec_mirror (List.replicate 32 0) 8) ∧
    matches_pattern_bytes (List.replicate 32 0) ⟨.Pattern, none, 8⟩ =
      some (spec_mirror (List.replicate 32 0) 8) :=
  mirror_matcher_eq (List.replicate 32 0) 8 (by simp) (by norm_num)

/-- C4 counterexample: at 65 nibbles the byte matcher panics (modelled `none`)
although the spec's Mirror predicate holds, so "returns true iff" fails. -/
theorem mirror_matcher_counterexample :
    matches_pattern_bytes (List.replicate 32 0) ⟨.Vanity, none, 65⟩ = none ∧
    spec_mirror (List.replicate 32 0) 65 = true := by decide

/-! ### C9 -/

theorem hexCharValue_upperByte_none (c : Nat) (h : isHexDigitByte c = false) :
    hexCharValue (upperByte c) = none := by
  have hd : ¬((48 ≤ c ∧ c ≤ 57) ∨ (65 ≤ c ∧ c ≤ 70) ∨ (97 ≤ c ∧ c ≤ 102)) := by
    intro hcon
    have ht : isHexDigitByte c = true := by
      unfold isHexDigitByte
      rcases hcon with ⟨a, b⟩ | ⟨a, b⟩ | ⟨a, b⟩ <;> simp [a, b]
    simp [ht] at h
  unfold upperByte hexCharValue
  split_ifs <;> first | rfl | omega

theorem matchesPrefixAux_bad (pb : List Nat) :
    ∀ (l : List Nat) (i : Nat), (∃ c ∈ l, hexCharValue c = none) →
      matchesPrefixAux pb l i = false := by
  intro l
  induction l with
  | nil =>
    rintro i ⟨c, hc, _⟩
    simp at hc
  | cons c rest ih =>
    rintro i ⟨d, hd, hnone⟩
    unfold matchesPrefixAux
    by_cases hge : 32 ≤ i / 2
    · rw [if_pos hge]
    · rw [if_neg hge]
      rcases List.mem_cons.mp hd with rfl | hd2
      · rw [hnone]
      · cases hv : hexCharValue c
        · rfl
        · rename_i e
          show (if (if i % 2 = 0 then pb.getD (i / 2) 0 >>> 4 else pb.getD (i / 2) 0 &&& 15) = e
            then matchesPrefixAux pb rest (i + 1) else false) = false
          split_ifs <;> first | rfl | exact ih (i + 1) ⟨d, hd2, hnone⟩

/-- C9: a configured prefix containing a non-hex character can never match:
in Prefix and PrefixVanity mode the byte matcher returns false on every key. -/
theorem nonhex_prefix_never_matches (key pre : List Nat) (vl : Nat)
    (hk : key.length = 32) (hbad : ∃ c ∈ pre, isHexDigitByte c = false) :
    matches_pattern_bytes key ⟨.Prefix, some pre, vl⟩ = some false ∧
    matches_pattern_bytes key ⟨.PrefixVanity, some pre, vl⟩ = some false := by
  obtain ⟨c, hc, hbadc⟩ := hbad
  have hfalse : matches_prefix_bytes key pre = false := by
    unfold matches_prefix_bytes
    exact matchesPrefixAux_bad key (asciiUpper pre) 0
      ⟨upperByte c, List.mem_map_of_mem _ hc, hexCharValue_upperByte_none c hbadc⟩
  constructor
  · show some (matches_prefix_bytes key pre) = some false
    rw [hfalse]
  · show (if ¬ matches_prefix_bytes key pre then some false
        else check_vanity_pattern_bytes key vl) = some false
    rw [hfalse]
    simp

/-- C9 witness. -/
theorem nonhex_prefix_never_matches_witness :
    matches_pattern_bytes (List.replicate 32 0) ⟨.Prefix, some [88, 89], 8⟩ = some false ∧
    matches_pattern_bytes (List.replicate 32 0) ⟨.PrefixVanity, some [88, 89], 8⟩ =
      some false :=
  nonhex_prefix_never_matches (List.replicate 32 0) [88, 89] 8 (by simp) (by decide)

set_option maxRecDepth 12000 in
/-- C8 witness: the zero private key with the non-decompressible public key
has both directed shared secrets all zero and is rejected with a reason. -/
theorem ecdh_degenerate_handling_witness :
    ecdh_key_exchange (List.replicate 64 0) bad_pub = List.replicate 32 0 ∧
    (validate_for_meshcore degenerate_key).valid = false ∧
    (validate_for_meshcore degenerate_key).reason ≠ none := by
  have h := ecdh_degenerate_handling (List.replicate 64 0) bad_pub degenerate_key
  have h2 := h.2 (by decide) (by decide)
  exact ⟨h.1 (by decide) (by decide), h2.1, h2.2⟩

/-! ### C5: nibble-sequence infrastructure -/

theorem byteNibbles_nil : byteNibbles [] = [] := rfl

theorem byteNibbles_cons (b : Nat) (t : List Nat) :
    byteNibbles (b :: t) = (b >>> 4) :: (b &&& 15) :: byteNibbles t := rfl

theorem byteNibbles_length (l : List Nat) : (byteNibbles l).length = 2 * l.length := by
  induction l with
  | nil => rfl
  | cons b t ih =>
    rw [byteNibbles_cons]
    simp only [List.length_cons, ih]
    omega

theorem byteNibbles_take (l : List Nat) (k : Nat) :
    (byteNibbles l).take (2 * k) = byteNibbles (l.take k) := by
  induction l generalizing k with
  | nil => simp [byteNibbles_nil]
  | cons b t ih =>
    cases k with
    | zero => simp [byteNibbles_nil]
    | succ k =>
      rw [byteNibbles_cons, List.take_succ_cons, byteNibbles_cons]
      have h2 : 2 * (k + 1) = 2 * k + 1 + 1 := by omega
      rw [h2, List.take_succ_cons, List.take_succ_cons, ih]

theorem byteNibbles_drop (l : List Nat) (k : Nat) :
    (byteNibbles l).drop (2 * k) = byteNibbles (l.drop k) := by
  induction l generalizing k with
  | nil => simp [byteNibbles_nil]
  | cons b t ih =>
    cases k with
    | zero => simp
    | succ k =>
      rw [byteNibbles_cons]
      have h2 : 2 * (k + 1) = 2 * k + 1 + 1 := by omega
      rw [h2, List.drop_succ_cons, List.drop_succ_cons, ih, List.drop_succ_cons]

theorem nibble_recompose (x : Nat) : x = 16 * (x >>> 4) + (x &&& 15) := by
  rw [Nat.shiftRight_eq_div_pow, show (15 : Nat) = 2 ^ 4 - 1 from rfl,
    Nat.and_pow_two_sub_one_eq_mod]
  omega

theorem byteNibbles_inj (a b : List Nat) (h : byteNibbles a = byteNibbles b) : a = b := by
  induction a generalizing b with
  | nil =>
    cases b with
    | nil => rfl
    | cons y s => simp [byteNibbles_cons, byteNibbles_nil] at h
  | cons x t ih =>
    cases b with
    | nil => simp [byteNibbles_cons, byteNibbles_nil] at h
    | cons y s =>
      rw [byteNibbles_cons, byteNibbles_cons] at h
      injection h with h1 h'
      injection h' with h2 h3
      have hxy : x = y := by rw [nibble_recompose x, nibble_recompose y, h1, h2]
      rw [hxy, ih s h3]

theorem byteNibbles_lt (l : List Nat) (hb : ∀ x ∈ l, x < 256) :
    ∀ v ∈ byteNibbles l, v < 16 := by
  induction l with
  | nil => simp [byteNibbles_nil]
  | cons b t ih =>
    intro v hv
    rw [byteNibbles_cons] at hv
    have hb256 : b < 256 := hb b (by simp)
    rcases List.mem_cons.mp hv with rfl | hv2
    · rw [Nat.shiftRight_eq_div_pow]
      omega
    · rcases List.mem_cons.mp hv2 with rfl | hv3
      · rw [show (15 : Nat) = 2 ^ 4 - 1 from rfl, Nat.and_pow_two_sub_one_eq_mod]
        omega
      · exact ih (fun x hx => hb x (by simp [hx])) v hv3

theorem byteNibbles_getD (l : List Nat) : ∀ i, i < 2 * l.length →
    (byteNibbles l).getD i 0 =
      (if i % 2 = 0 then l.getD (i / 2) 0 >>> 4 else l.getD (i / 2) 0 &&& 15) := by
  induction l with
  | nil =>
    intro i h
    simp at h
  | cons b t ih =>
    intro i h
    rw [byteNibbles_cons]
    match i with
    | 0 => simp
    | 1 => simp
    | (i + 2) =>
      rw [List.getD_cons_succ, List.getD_cons_succ, ih i (by simp at h ⊢; omega)]
      have h2 : (i + 2) % 2 = i % 2 := by omega
      have h3 : (i + 2) / 2 = i / 2 + 1 := by omega
      rw [h2, h3, List.getD_cons_succ]

theorem hexDigitU_inj (v w : Nat) (h : hexDigitU v = hexDigitU w) : v = w := by
  unfold hexDigitU at h
  split_ifs at h <;> omega

theorem map_hexDigitU_inj (a b : List Nat) (h : a.map hexDigitU = b.map hexDigitU) :
    a = b := by
  induction a generalizing b with
  | nil =>
    cases b with
    | nil => rfl
    | cons y s => simp at h
  | cons x t ih =>
    cases b with
    | nil => simp at h
    | cons y s =>
      simp only [List.map_cons, List.cons.injEq] at h
      rw [hexDigitU_inj x y h.1, ih s h.2]

set_option maxRecDepth 4000 in
theorem upperByte_hexDigitL (v : Nat) (h : v < 16) : upperByte (hexDigitL v) = hexDigitU v := by
  revert v
  decide

theorem upper_hexEncode (l : List Nat) (hb : ∀ x ∈ l, x < 256) :
    asciiUpper (hexEncode l) = (byteNibbles l).map hexDigitU := by
  induction l with
  | nil => rfl
  | cons b t ih =>
    have hb256 : b < 256 := hb b (by simp)
    have e1 : b >>> 4 = b / 16 := by
      rw [Nat.shiftRight_eq_div_pow]
    have e2 : b &&& 15 = b % 16 := by
      rw [show (15 : Nat) = 2 ^ 4 - 1 from rfl, Nat.and_pow_two_sub_one_eq_mod]
    show (hexDigitL (b / 16) :: hexDigitL (b % 16) :: hexEncode t).map upperByte =
      (((b >>> 4) :: (b &&& 15) :: byteNibbles t).map hexDigitU)
    simp only [List.map_cons]
    rw [upperByte_hexDigitL _ (by omega), upperByte_hexDigitL _ (by omega), e1, e2]
    exact congrArg₂ _ rfl (congrArg₂ _ rfl (ih fun x hx => hb x (by simp [hx])))

set_option maxRecDepth 12000 in
theorem beq_hexDigitU_char (c : Nat) (hc : c < 256) (hnl : ¬(97 ≤ c ∧ c ≤ 102)) (v : Nat)
    (hv : v < 16) : (c == hexDigitU v) = (hexCharValue (upperByte c) == some v) := by
  revert hnl
  revert v
  revert c
  decide

/-! ### C5: prefix agreement -/

theorem matchesPrefixAux_agree (key : List Nat) (hk : key.length = 32)
    (hb : ∀ x ∈ key, x < 256) :
    ∀ (pre : List Nat) (i : Nat), (∀ c ∈ pre, c < 256) → (∀ c ∈ pre, ¬(97 ≤ c ∧ c ≤ 102)) →
      matchesPrefixAux key (asciiUpper pre) i =
        pre.isPrefixOf (((byteNibbles key).map hexDigitU).drop i) := by
  intro pre
  have hlen : ((byteNibbles key).map hexDigitU).length = 64 := by
    simp [byteNibbles_length, hk]
  induction pre with
  | nil =>
    intro i _ _
    simp [asciiUpper, matchesPrefixAux, List.isPrefixOf]
  | cons c rest ih =>
    intro i hlt hnl
    show matchesPrefixAux key (upperByte c :: asciiUpper rest) i = _
    unfold matchesPrefixAux
    by_cases hge : 32 ≤ i / 2
    · rw [if_pos hge]
      rw [List.drop_eq_nil_of_le (by omega)]
      rfl
    · rw [if_neg hge]
      have hi : i < 64 := by omega
      have hnlen : (byteNibbles key).length = 64 := by
        rw [byteNibbles_length, hk]
      have hdrop : ((byteNibbles key).map hexDigitU).drop i =
          hexDigitU ((byteNibbles key).getD i 0) :: ((byteNibbles key).map hexDigitU).drop (i + 1) := by
        rw [List.drop_eq_getElem_cons (show i < _ from by rw [hlen]; omega)]
        congr 1
        rw [List.getElem_map]
        congr 1
        rw [List.getD_eq_getElem?_getD, List.getElem?_eq_getElem (by rw [hnlen]; omega)]
        rfl
      rw [hdrop]
      show _ = (c == hexDigitU ((byteNibbles key).getD i 0) &&
        rest.isPrefixOf (((byteNibbles key).map hexDigitU).drop (i + 1)))
      have hnib : (byteNibbles key).getD i 0 =
          (if i % 2 = 0 then key.getD (i / 2) 0 >>> 4 else key.getD (i / 2) 0 &&& 15) :=
        byteNibbles_getD key i (by omega)
      have hmem : (byteNibbles key).getD i 0 ∈ byteNibbles key := by
        rw [List.getD_eq_getElem?_getD, List.getElem?_eq_getElem (by rw [hnlen]; omega)]
        exact List.getElem_mem _
      have hv16 : (byteNibbles key).getD i 0 < 16 := byteNibbles_lt key hb _ hmem
      have hc256 : c < 256 := hlt c (by simp)
      have hcnl : ¬(97 ≤ c ∧ c ≤ 102) := hnl c (by simp)
      have hkey := beq_hexDigitU_char c hc256 hcnl _ hv16
      cases hcv : hexCharValue (upperByte c) with
      | none =>
        rw [hcv] at hkey
        show false = (c == hexDigitU ((byteNibbles key).getD i 0) &&
          rest.isPrefixOf (((byteNibbles key).map hexDigitU).drop (i + 1)))
        rw [hkey]
        simp
      | some e =>
        rw [hcv] at hkey
        show (if (if i % 2 = 0 then key.getD (i / 2) 0 >>> 4 else key.getD (i / 2) 0 &&& 15) = e
            then matchesPrefixAux key (asciiUpper rest) (i + 1) else false) =
          (c == hexDigitU ((byteNibbles key).getD i 0) &&
            rest.isPrefixOf (((byteNibbles key).map hexDigitU).drop (i + 1)))
        rw [hkey, ← hnib]
        by_cases he : (byteNibbles key).getD i 0 = e
        · rw [if_pos he, ih (i + 1) (fun x hx => hlt x (by simp [hx]))
            (fun x hx => hnl x (by simp [hx]))]
          have heq : (some e == some ((byteNibbles key).getD i 0)) = true :=
            beq_iff_eq.mpr (by rw [he])
          rw [heq, Bool.true_and]
        · rw [if_neg he]
          have heq : (some e == some ((byteNibbles key).getD i 0)) = false :=
            beq_eq_false_iff_ne.mpr fun hh => he (Option.some.inj hh).symm
          rw [heq, Bool.false_and]

theorem matches_prefix_agree (key pre : List Nat) (hk : key.length = 32)
    (hb : ∀ x ∈ key, x < 256) (hlt : ∀ c ∈ pre, c < 256)
    (hnl : ∀ c ∈ pre, ¬(97 ≤ c ∧ c ≤ 102)) :
    matches_prefix_bytes key pre = pre.isPrefixOf (asciiUpper (hexEncode key)) := by
  unfold matches_prefix_bytes
  rw [upper_hexEncode key hb]
  simpa using matchesPrefixAux_agree key hk hb pre 0 hlt hnl

/-! ### C5: vanity agreement -/

theorem check_vanity_hex (key : List Nat) (k : Nat) (hk : key.length = 32)
    (hb : ∀ x ∈ key, x < 256) (hkk : k ≤ 16) :
    check_vanity_pattern (asciiUpper (hexEncode key)) (2 * k) =
      (key.take k == key.drop (32 - k) ||
        check_nibble_palindrome (key.take k) (key.drop (32 - k))) := by
  rw [upper_hexEncode key hb]
  unfold check_vanity_pattern
  have hlen : ((byteNibbles key).map hexDigitU).length = 64 := by
    simp [byteNibbles_length, hk]
  rw [if_neg (by rw [hlen]; omega)]
  have ht : ((byteNibbles key).map hexDigitU).take (2 * k) =
      (byteNibbles (key.take k)).map hexDigitU := by
    rw [← List.map_take, byteNibbles_take]
  have hd : ((byteNibbles key).map hexDigitU).drop
        (((byteNibbles key).map hexDigitU).length - 2 * k) =
      (byteNibbles (key.drop (32 - k))).map hexDigitU := by
    rw [hlen, ← List.map_drop]
    have h64 : (64 - 2 * k) = 2 * (32 - k) := by omega
    rw [h64, byteNibbles_drop]
  rw [ht, hd]
  have l1 : (key.take k).length = k := by
    rw [List.length_take, hk]
    omega
  have l2 : (key.drop (32 - k)).length = k := by
    rw [List.length_drop, hk]
    omega
  have hEq1 : ((byteNibbles (key.take k)).map hexDigitU ==
      (byteNibbles (key.drop (32 - k))).map hexDigitU) =
      (key.take k == key.drop (32 - k)) := by
    apply bool_eq_of_iff
    simp only [beq_iff_eq]
    constructor
    · intro h
      exact byteNibbles_inj _ _ (map_hexDigitU_inj _ _ h)
    · intro h
      rw [h]
  have hEq2 : ((byteNibbles (key.take k)).map hexDigitU ==
      ((byteNibbles (key.drop (32 - k))).map hexDigitU).reverse) =
      check_nibble_palindrome (key.take k) (key.drop (32 - k)) := by
    unfold check_nibble_palindrome
    rw [if_neg (by rw [l1, l2]; simp)]
    apply bool_eq_of_iff
    simp only [beq_iff_eq]
    rw [← List.map_reverse]
    constructor
    · intro h
      exact map_hexDigitU_inj _ _ h
    · intro h
      rw [h]
  show ((byteNibbles (key.take k)).map hexDigitU == (byteNibbles (key.drop (32 - k))).map hexDigitU ||
      (byteNibbles (key.take k)).map hexDigitU ==
        ((byteNibbles (key.drop (32 - k))).map hexDigitU).reverse) = _
  rw [hEq1, hEq2]

theorem vanity_modes_agree (key : List Nat) (vl : Nat) (hk : key.length = 32)
    (hb : ∀ x ∈ key, x < 256) (hv2 : vl % 2 = 0) (hv32 : vl ≤ 32) :
    check_vanity_pattern_bytes key vl =
      some (check_vanity_pattern (asciiUpper (hexEncode key)) vl) := by
  obtain ⟨k, rfl⟩ : ∃ k, vl = 2 * k := ⟨vl / 2, by omega⟩
  have hkk : k ≤ 16 := by omega
  have he : (2 * k + 1) / 2 = k := by omega
  rw [check_vanity_bytes_eq key (2 * k) hk (by omega), he,
    check_vanity_hex key k hk hb hkk]

/-- C5 (amended): on 32-byte keys, whenever the configured vanity length is
even and at most 32 and the configured prefix contains no lowercase hex
letter, the raw-byte matcher agrees with the hex-string matcher applied to the
hex encoding of the key. -/
theorem hex_byte_matcher_agree (key : List Nat) (cfg : PatternConfig)
    (hk : key.length = 32) (hb : ∀ x ∈ key, x < 256)
    (hv2 : cfg.vanity_length % 2 = 0) (hv32 : cfg.vanity_length ≤ 32)
    (hp : ∀ l, cfg.prefix_str = some l → ∀ c ∈ l, c < 256 ∧ ¬(97 ≤ c ∧ c ≤ 102)) :
    matches_pattern_bytes key cfg = some (matches_pattern (hexEncode key) cfg) := by
  obtain ⟨mode, pre, vl⟩ := cfg
  have hv2' : vl % 2 = 0 := hv2
  have hv32' : vl ≤ 32 := hv32
  cases mode with
  | Any => rfl
  | Prefix =>
    cases pre with
    | none => rfl
    | some l =>
      have hl := hp l rfl
      show some (matches_prefix_bytes key l) =
        some (l.isPrefixOf (asciiUpper (hexEncode key)))
      rw [matches_prefix_agree key l hk hb (fun c hc => (hl c hc).1) (fun c hc => (hl c hc).2)]
  | Vanity =>
    show check_vanity_pattern_bytes key vl =
      some (check_vanity_pattern (asciiUpper (hexEncode key)) vl)
    exact vanity_modes_agree key vl hk hb hv2' hv32'
  | Pattern =>
    show check_vanity_pattern_bytes key vl =
      some (check_vanity_pattern (asciiUpper (hexEncode key)) vl)
    exact vanity_modes_agree key vl hk hb hv2' hv32'
  | PrefixVanity =>
    cases pre with
    | none =>
      show check_vanity_pattern_bytes key vl =
        some (check_vanity_pattern (asciiUpper (hexEncode key)) vl)
      exact vanity_modes_agree key vl hk hb hv2' hv32'
    | some l =>
      have hl := hp l rfl
      have hpre := matches_prefix_agree key l hk hb
        (fun c hc => (hl c hc).1) (fun c hc => (hl c hc).2)
      show (if ¬ matches_prefix_bytes key l then some false
          else check_vanity_pattern_bytes key vl) =
        some (if ¬ l.isPrefixOf (asciiUpper (hexEncode key)) then false
          else check_vanity_pattern (asciiUpper (hexEncode key)) vl)
      rw [hpre]
      by_cases hmatch : l.isPrefixOf (asciiUpper (hexEncode key)) = true
      · rw [if_neg (not_not_intro hmatch), if_neg (not_not_intro hmatch)]
        exact vanity_modes_agree key vl hk hb hv2' hv32'
      · rw [if_pos hmatch, if_pos hmatch]

/-- C5 witness. -/
theorem hex_byte_matcher_agree_witness :
    matches_pattern_bytes (List.replicate 32 0) ⟨.PrefixVanity, some [48, 49], 4⟩ =
      some (matches_pattern (hexEncode (List.replicate 32 0))
        ⟨.PrefixVanity, some [48, 49], 4⟩) :=
  hex_byte_matcher_agree (List.replicate 32 0) ⟨.PrefixVanity, some [48, 49], 4⟩
    (by simp) (by simp) (by decide) (by decide)
    (fun l hl => by injection hl with h; subst h; decide)

/-- C5 counterexample: the raw-byte matcher accepts a key for `Vanity` length
1 that the hex-string matcher rejects, so the two matchers disagree. -/
theorem hex_byte_matcher_counterexample :
    matches_pattern_bytes mirror_key_example ⟨.Vanity, none, 1⟩ = some true ∧
    matches_pattern (hexEncode mirror_key_example) ⟨.Vanity, none, 1⟩ = false := by
  decide

set_option maxRecDepth 12000 in
/-- C2: the CPU and accelerator derivation paths disagree: on the all-zero
seed the Metal shader pipeline produces a public key different from the CPU
path (the shader's 51-bit limb products overflow `int64`), while the private
keys coincide.  This refutes the claimed byte-identical parity. -/
theorem gpu_cpu_parity_failure :
    (gpu_derive gpu_seed0).1 ≠ (generate_from_seed gpu_seed0).public_bytes ∧
    (gpu_derive gpu_seed0).2 = (generate_from_seed gpu_seed0).private_bytes := by
  constructor
  · rw [gpu_pub_zero, cpu_pub_zero]
    decide
  · decide

end MeshKeygen
